import Mathlib

/-!
Verification of the CHoCH alert backend's core engine against its
natural-language specification.

Shallow embedding conventions, matching `src/detectors/choch_detector.py`,
`src/data/aligned_candle_aggregator.py`, `src/data/timeframe_adapter.py`
and `src/utils/timeframe_scheduler.py`:

* Prices and volumes are modelled as rationals (`ℚ`); the Python code only
  compares them and takes maxima/minima, so exact ordered-field semantics
  coincide with the float semantics on the inputs considered.
* A candle window (`pandas.DataFrame` with increasing timestamp index) is a
  `List Candle`; a bar identifier is its integer position in the window.
  The detector stores `df.index[pos]` values and converts back with
  `df.index.get_loc`, an order isomorphism onto positions, so positions are
  a faithful encoding.  `df.loc[b]` with a missing key (KeyError) is
  modelled by `List.get?` returning `none`.
* NaN handling in `classify_variant` is dropped: `ℚ` has no NaN.
* `aligned_candle_aggregator` timestamps are whole minutes encoded as `Int`
  minutes since 2025-10-20T00:00 UTC (the `'50m'` reference row); all
  reference instants of `TIMEFRAME_REFERENCES` are encoded in that scale.
* The scheduler works on wall-clock seconds (microseconds already removed
  by `datetime.now().replace(microsecond=0)`), encoded as `Nat` seconds
  since an arbitrary midnight.
* An uncaught Python exception inside `check_choch` (comparing a price with
  a `None` `pivot6`) is modelled by an `Option` result being `none`.
-/

/-- One OHLCV bar.  `open` is a Lean keyword, hence `open_`. -/
structure Candle where
  open_ : ℚ
  high : ℚ
  low : ℚ
  close : ℚ
  volume : ℚ
deriving DecidableEq, Repr

/-- Placeholder candle used for the total versions of guarded list reads. -/
def junkCandle : Candle := ⟨0, 0, 0, 0, 0⟩

/-- A stored pivot: `(bar, price, is_high)` of the three parallel deques
`bars`, `prices`, `highs` of `TimeframeState` (they are always pushed
together by `store_pivot`, so one list of records is equivalent). -/
structure PivotEntry where
  bar : Nat
  price : ℚ
  isHigh : Bool
deriving DecidableEq, Repr

/-- A variant-matched pivot candidate produced by
`detect_pivots_with_variants`: `(index, price, is_high, variant_type)`. -/
structure PivotCand where
  i : Nat
  price : ℚ
  isHigh : Bool
  variant : String
deriving DecidableEq, Repr

/-- Constructor arguments of `ChochDetector.__init__`
(`src/detectors/choch_detector.py:86`): pivot window half-widths, pivot
deque capacity and the six variant allow flags. -/
structure DetectorConfig where
  left : Nat
  right : Nat
  keepPivots : Nat
  allowPH1 : Bool
  allowPH2 : Bool
  allowPH3 : Bool
  allowPL1 : Bool
  allowPL2 : Bool
  allowPL3 : Bool
deriving DecidableEq, Repr

/-- The `allow_variants` dict built in `ChochDetector.__init__`
(`src/detectors/choch_detector.py:95`). -/
def allowVariants (cfg : DetectorConfig) : List (String × Bool) :=
  [("PH1", cfg.allowPH1), ("PH2", cfg.allowPH2), ("PH3", cfg.allowPH3),
   ("PL1", cfg.allowPL1), ("PL2", cfg.allowPL2), ("PL3", cfg.allowPL3)]

/-- `self.allow_variants.get(variant, False)`
(`src/detectors/choch_detector.py:153`). -/
def allowGet (cfg : DetectorConfig) (v : String) : Bool :=
  ((allowVariants cfg).lookup v).getD false

/-- `ChochDetector.is_pivot_high_basic` (`src/detectors/choch_detector.py:109`):
strictly above every high on the left window, at least every high on the
right window.  Callers only use `left ≤ i` and `i + right < df.length`. -/
def isPivotHighBasic (df : List Candle) (left right i : Nat) : Bool :=
  let center := (df.getD i junkCandle).high
  ((List.range' (i - left) left).all fun j => decide ((df.getD j junkCandle).high < center)) &&
  ((List.range' (i + 1) right).all fun j => decide ((df.getD j junkCandle).high ≤ center))

/-- `ChochDetector.is_pivot_low_basic` (`src/detectors/choch_detector.py:125`). -/
def isPivotLowBasic (df : List Candle) (left right i : Nat) : Bool :=
  let center := (df.getD i junkCandle).low
  ((List.range' (i - left) left).all fun j => decide (center < (df.getD j junkCandle).low)) &&
  ((List.range' (i + 1) right).all fun j => decide (center ≤ (df.getD j junkCandle).low))

/-- `ChochDetector.classify_variant` (`src/detectors/choch_detector.py:164`).
`h3, l3` are the bar left of the pivot, `h2, l2` the pivot bar, `h1, l1`
the bar right of it.  Exactly the three `PH`/`PL` tests of the source, in
source order, with `"NA"` when none matches. -/
def classifyVariant (df : List Candle) (pivotIdx : Nat) (isHigh : Bool) : String :=
  if pivotIdx < 1 ∨ df.length ≤ pivotIdx + 1 then "NA" else
  let h3 := (df.getD (pivotIdx - 1) junkCandle).high
  let h2 := (df.getD pivotIdx junkCandle).high
  let h1 := (df.getD (pivotIdx + 1) junkCandle).high
  let l3 := (df.getD (pivotIdx - 1) junkCandle).low
  let l2 := (df.getD pivotIdx junkCandle).low
  let l1 := (df.getD (pivotIdx + 1) junkCandle).low
  if isHigh then
    if h2 > h1 ∧ h2 > h3 ∧ l2 > l1 ∧ l2 > l3 then "PH1"
    else if h2 ≥ h1 ∧ h2 > h3 ∧ l2 > l3 ∧ l2 < l1 then "PH2"
    else if h2 > h1 ∧ h2 ≥ h3 ∧ l2 < l3 ∧ l2 > l1 then "PH3"
    else "NA"
  else
    if l2 < l1 ∧ l2 < l3 ∧ h2 < h1 ∧ h2 < h3 then "PL1"
    else if h2 ≥ h1 ∧ h2 < h3 ∧ l2 < l3 ∧ l2 ≤ l1 then "PL2"
    else if l2 < l1 ∧ l2 < l3 ∧ h2 < h1 ∧ h2 > h3 then "PL3"
    else "NA"

/-- `ChochDetector.detect_pivots_with_variants`
(`src/detectors/choch_detector.py:141`): scan centers
`range(left, len(df) - right)`, keep a candidate only when the basic pivot
test holds, the variant is not `"NA"` and the variant is on the allow-list;
the high test runs before the low test at each center. -/
def detectPivotsWithVariants (cfg : DetectorConfig) (df : List Candle) : List PivotCand :=
  (List.range' cfg.left (df.length - cfg.right - cfg.left)).flatMap fun i =>
    (if isPivotHighBasic df cfg.left cfg.right i then
       let v := classifyVariant df i true
       if v ≠ "NA" ∧ allowGet cfg v then
         [{ i := i, price := (df.getD i junkCandle).high, isHigh := true, variant := v }]
       else []
     else []) ++
    (if isPivotLowBasic df cfg.left cfg.right i then
       let v := classifyVariant df i false
       if v ≠ "NA" ∧ allowGet cfg v then
         [{ i := i, price := (df.getD i junkCandle).low, isHigh := false, variant := v }]
       else []
     else [])

/-- C1: the variant classifier of the code knows only the six variants
PH1, PH2, PH3, PL1, PL2, PL3 (besides the `"NA"` sentinel), and the
`allow_variants` table built by the constructor accepts no identifier
outside those six — there is no PH4/PH5/PL4/PL5 anywhere in the detector,
contradicting the claimed ten-variant allow-list. -/
theorem classify_and_allow_cover_six_variants :
    (∀ df i, classifyVariant df i true ∈ (["PH1", "PH2", "PH3", "NA"] : List String)) ∧
    (∀ df i, classifyVariant df i false ∈ (["PL1", "PL2", "PL3", "NA"] : List String)) ∧
    (∀ cfg v, allowGet cfg v = true →
      v ∈ (["PH1", "PH2", "PH3", "PL1", "PL2", "PL3"] : List String)) := by
  refine ⟨fun df i => ?_, fun df i => ?_, fun cfg v h => ?_⟩
  · unfold classifyVariant
    split
    · simp
    · simp only [reduceIte]
      split_ifs <;> simp
  · unfold classifyVariant
    split
    · simp
    · simp only [Bool.false_eq_true, reduceIte]
      split_ifs <;> simp
  · unfold allowGet allowVariants at h
    simp only [List.lookup] at h
    repeat' split at h
    all_goals simp_all [beq_iff_eq]

/-- Witness for `classify_and_allow_cover_six_variants` at concrete inputs. -/
theorem classify_and_allow_cover_six_variants_witness :
    classifyVariant [] 0 true ∈ (["PH1", "PH2", "PH3", "NA"] : List String) ∧
    (⟨1, 1, 1, true, true, true, true, true, true⟩ : DetectorConfig).allowPH1 = true ∧
    "PH1" ∈ (["PH1", "PH2", "PH3", "PL1", "PL2", "PL3"] : List String) := by
  refine ⟨classify_and_allow_cover_six_variants.1 [] 0, by decide, ?_⟩
  exact classify_and_allow_cover_six_variants.2.2 ⟨1, 1, 1, true, true, true, true, true, true⟩
    "PH1" (by decide)

/-- State of `TimeframeState` (`src/detectors/choch_detector.py:14`); the
three parallel deques are one list of `PivotEntry`. -/
structure TimeframeState where
  left : Nat
  right : Nat
  keepPivots : Nat
  pivots : List PivotEntry
  lastPivotBar : Option Nat
  lastPivotPrice : Option ℚ
  lastEightUp : Bool
  lastEightDown : Bool
  lastEightBarIdx : Option Nat
  pivot5 : Option ℚ
  pivot6 : Option ℚ
  patternGroup : Option String
  chochLocked : Bool
  chochBarIdx : Option Nat
  chochPrice : Option ℚ
deriving DecidableEq, Repr

/-- Fresh state as built by `TimeframeState.__init__` / `reset`
(`src/detectors/choch_detector.py:17` and `py:48`). -/
def initState (cfg : DetectorConfig) : TimeframeState where
  left := cfg.left
  right := cfg.right
  keepPivots := cfg.keepPivots
  pivots := []
  lastPivotBar := none
  lastPivotPrice := none
  lastEightUp := false
  lastEightDown := false
  lastEightBarIdx := none
  pivot5 := none
  pivot6 := none
  patternGroup := none
  chochLocked := false
  chochBarIdx := none
  chochPrice := none

/-- Append to a `collections.deque(maxlen := k)`: the oldest entries fall
off the left so that at most `k` remain. -/
def capAppend (k : Nat) (l : List PivotEntry) (x : PivotEntry) : List PivotEntry :=
  let l2 := l ++ [x]
  if k < l2.length then l2.drop (l2.length - k) else l2

/-- `TimeframeState.store_pivot` (`src/detectors/choch_detector.py:42`). -/
def storePivot (s : TimeframeState) (bar : Nat) (price : ℚ) (isHigh : Bool) : TimeframeState :=
  { s with pivots := capAppend s.keepPivots s.pivots ⟨bar, price, isHigh⟩ }

/-- `TimeframeState.pivot_count` (`src/detectors/choch_detector.py:73`). -/
def pivotCount (s : TimeframeState) : Nat := s.pivots.length

/-- `TimeframeState.get_pivot_from_end` (`src/detectors/choch_detector.py:77`);
all call sites guard the index to be in range, so a total read with a junk
default is faithful. -/
def pivotFromEnd (s : TimeframeState) (idxFromEnd : Nat) : PivotEntry :=
  s.pivots.getD (s.pivots.length - 1 - idxFromEnd) ⟨0, 0, false⟩

/-- Position (relative to the slice) and low price of the first candle
attaining the minimal low: `gap_df['low'].idxmin()` returns the first
index attaining the minimum. -/
def argminLow : List Candle → Nat × ℚ
  | [] => (0, 0)
  | c :: rest =>
    match rest with
    | [] => (0, c.low)
    | _ :: _ =>
      let r := argminLow rest
      if c.low ≤ r.2 then (0, c.low) else (r.1 + 1, r.2)

/-- Position and high price of the first candle attaining the maximal
high: `gap_df['high'].idxmax()`. -/
def argmaxHigh : List Candle → Nat × ℚ
  | [] => (0, 0)
  | c :: rest =>
    match rest with
    | [] => (0, c.high)
    | _ :: _ =>
      let r := argmaxHigh rest
      if r.2 ≤ c.high then (0, c.high) else (r.1 + 1, r.2)

/-- `ChochDetector.insert_fake_pivot` (`src/detectors/choch_detector.py:220`).
Bars are window positions here, so the timestamp-to-position conversion of
the source is the identity and `gap = new_bar - last_bar - 1` directly
(computed in `Int` to keep Python's signed semantics).  The gap slice
`df.iloc[last_bar+1 : new_bar-1+1]` is `drop`/`take`, which clamps exactly
like `iloc` slicing. -/
def insertFakePivot (s : TimeframeState) (df : List Candle)
    (lastBar : Nat) (lastHigh : Bool) (newBar : Nat) (newHigh : Bool) :
    Bool × TimeframeState :=
  if lastHigh ≠ newHigh then (false, s) else
  let gap : Int := (newBar : Int) - (lastBar : Int) - 1
  if gap ≤ 0 then (false, s) else
  if 3 < gap then (false, s) else
  let gapDf := (df.drop (lastBar + 1)).take gap.toNat
  if gapDf.length = 0 then (false, s) else
  let best := if newHigh then argminLow gapDf else argmaxHigh gapDf
  let insertBar := lastBar + 1 + best.1
  let insertPrice := best.2
  if lastBar < insertBar ∧ insertBar < newBar then
    let s2 := storePivot s insertBar insertPrice (!newHigh)
    (true, { s2 with lastPivotBar := some insertBar, lastPivotPrice := some insertPrice })
  else (false, s)

/-- Result tuple of `ChochDetector.check_eight_pattern`
(`src/detectors/choch_detector.py:293`): `(last_eight_up, last_eight_down,
pattern_group, pivot5, pivot6, last_eight_bar_idx, p2)`. -/
structure EightResult where
  up : Bool
  down : Bool
  group : Option String
  p5 : Option ℚ
  p6 : Option ℚ
  b8 : Option Nat
  p2 : Option ℚ
deriving DecidableEq, Repr

/-- The all-`False`/`None` tuple returned on every failed check. -/
def noEight : EightResult := ⟨false, false, none, none, none, none, none⟩

/-- `ChochDetector.check_eight_pattern` (`src/detectors/choch_detector.py:293`):
alternation of the newest eight pivots (shifted by `offset`), p7-retests-p4,
p8 extreme, G1/G2/G3 price ordering and the p5-vs-p2 breakout, with
KeyError on a bar lookup modelled by `List.get?` being `none`. -/
def checkEightPattern (s : TimeframeState) (df : List Candle) (offset : Nat) : EightResult :=
  if pivotCount s < 8 + offset then noEight else
  let e8 := pivotFromEnd s (0 + offset)
  let e7 := pivotFromEnd s (1 + offset)
  let e6 := pivotFromEnd s (2 + offset)
  let e5 := pivotFromEnd s (3 + offset)
  let e4 := pivotFromEnd s (4 + offset)
  let e3 := pivotFromEnd s (5 + offset)
  let e2 := pivotFromEnd s (6 + offset)
  let e1 := pivotFromEnd s (7 + offset)
  let upStruct := !e1.isHigh && e2.isHigh && !e3.isHigh && e4.isHigh &&
    !e5.isHigh && e6.isHigh && !e7.isHigh && e8.isHigh
  let downStruct := e1.isHigh && !e2.isHigh && e3.isHigh && !e4.isHigh &&
    e5.isHigh && !e6.isHigh && e7.isHigh && !e8.isHigh
  if ¬ (upStruct = true ∨ downStruct = true) then noEight else
  match df.get? e7.bar, df.get? e4.bar with
  | some c7, some c4 =>
    let touchRetest := (upStruct && decide (c7.low < c4.high)) ||
      (downStruct && decide (c7.high > c4.low))
    if touchRetest = false then noEight else
    let allPrices := [e1.price, e2.price, e3.price, e4.price, e5.price, e6.price, e7.price, e8.price]
    let isHighest8 := decide (e8.price = allPrices.foldr max e1.price)
    let isLowest8 := decide (e8.price = allPrices.foldr min e1.price)
    let g1Up := e2.price < e4.price ∧ e4.price < e6.price ∧ e6.price < e8.price ∧
      e3.price < e5.price ∧ e5.price < e7.price
    let g1Down := e3.price > e5.price ∧ e5.price > e7.price ∧
      e2.price > e4.price ∧ e4.price > e6.price ∧ e6.price > e8.price
    let g2Up := e3.price < e7.price ∧ e7.price < e5.price ∧
      e2.price < e6.price ∧ e6.price < e4.price ∧ e4.price < e8.price ∧ e2.price < e5.price
    let g2Down := e3.price > e7.price ∧ e7.price > e5.price ∧
      e2.price > e6.price ∧ e6.price > e4.price ∧ e4.price > e8.price ∧ e2.price > e5.price
    let g3Up := e3.price < e5.price ∧ e5.price < e7.price ∧
      e2.price < e6.price ∧ e6.price < e4.price ∧ e4.price < e8.price ∧ e2.price < e5.price
    let g3Down := e3.price > e5.price ∧ e5.price > e7.price ∧
      e2.price > e6.price ∧ e6.price > e4.price ∧ e4.price > e8.price ∧ e2.price > e5.price
    let upOrderOk := decide g1Up || decide g2Up || decide g3Up
    let downOrderOk := decide g1Down || decide g2Down || decide g3Down
    let breakouts :=
      match df.get? e5.bar, df.get? e2.bar with
      | some c5, some c2 => (decide (c5.low > c2.high), decide (c5.high < c2.low))
      | _, _ => (false, false)
    let upResult := upStruct && upOrderOk && touchRetest && isHighest8 && breakouts.1
    let downResult := downStruct && downOrderOk && touchRetest && isLowest8 && breakouts.2
    if upResult = true ∨ downResult = true then
      let group :=
        if upResult then
          if g1Up then some "G1" else if g2Up then some "G2"
          else if g3Up then some "G3" else none
        else
          if g1Down then some "G1" else if g2Down then some "G2"
          else if g3Down then some "G3" else none
      ⟨upResult, downResult, group, some e5.price, some e6.price, some e8.bar, some e2.price⟩
    else noEight
  | _, _ => noEight

/-- One iteration of the pivot loop inside `ChochDetector.rebuild_pivots`
(`src/detectors/choch_detector.py:760`): maybe insert a synthetic pivot,
then store the real pivot and update the last-pivot fields. -/
def rebuildStep (df : List Candle) (s : TimeframeState) (c : PivotCand) : TimeframeState :=
  let s1 :=
    if 0 < pivotCount s then
      let lastP := pivotFromEnd s 0
      (insertFakePivot s df lastP.bar lastP.isHigh c.i c.isHigh).2
    else s
  let s2 := storePivot s1 c.i c.price c.isHigh
  { s2 with lastPivotBar := some c.i, lastPivotPrice := some c.price }

/-- `ChochDetector.rebuild_pivots` (`src/detectors/choch_detector.py:731`):
reset the state, walk the variant-matched pivots (inserting synthetic
pivots), then run the eight-pivot check and record its outcome. -/
def rebuildPivots (cfg : DetectorConfig) (df : List Candle) : TimeframeState :=
  let s0 := initState cfg
  if df.length < cfg.left + cfg.right + 1 then s0 else
  let s1 := (detectPivotsWithVariants cfg df).foldl (rebuildStep df) s0
  let r := checkEightPattern s1 df 0
  if r.up = true ∨ r.down = true then
    { s1 with
      lastEightUp := r.up
      lastEightDown := r.down
      patternGroup := r.group
      pivot5 := r.p5
      pivot6 := r.p6
      lastEightBarIdx := r.b8 }
  else s1

/-- CHoCH-up bar test of `check_choch` (`src/detectors/choch_detector.py:521`):
`low[prev] > low[pre_prev] ∧ close[prev] > high[pre_prev] ∧
close[prev] > pivot6 ∧ close[prev] < p2`. -/
def chochUpBarTest (prev prePrev : Candle) (pivot6Val p2 : ℚ) : Bool :=
  decide (prev.low > prePrev.low) && decide (prev.close > prePrev.high) &&
  decide (prev.close > pivot6Val) && decide (prev.close < p2)

/-- CHoCH-down bar test of `check_choch` (`src/detectors/choch_detector.py:527`). -/
def chochDownBarTest (prev prePrev : Candle) (pivot6Val p2 : ℚ) : Bool :=
  decide (prev.high < prePrev.high) && decide (prev.close < prePrev.low) &&
  decide (prev.close < pivot6Val) && decide (prev.close > p2)

/-- Basic up-confirmation (`src/detectors/choch_detector.py:569`):
confirmation close above the pre-CHoCH high. -/
def confirmUpBasicTest (current prePrev : Candle) : Bool :=
  decide (current.close > prePrev.high)

/-- Basic down-confirmation (`src/detectors/choch_detector.py:572`). -/
def confirmDownBasicTest (current prePrev : Candle) : Bool :=
  decide (current.close < prePrev.low)

/-- G1 volume condition (`src/detectors/choch_detector.py:591`):
`(678_ok ∧ 456_ok) ∨ 45678_ok` over the pivot-bar volumes and the CHoCH
bar volume. -/
def volCondG1 (vol4 vol5 vol6 vol7 vol8 volChoch : ℚ) : Bool :=
  let max678 := max vol6 (max vol7 vol8)
  let vol678Ok := decide (vol8 = max678) || decide (vol6 = max678) || decide (volChoch = max678)
  let max456 := max vol4 (max vol5 vol6)
  let vol456Ok := decide (vol4 = max456) || decide (vol6 = max456)
  let max45678 := max vol4 (max vol5 (max vol6 (max vol7 vol8)))
  let vol45678Ok := decide (vol8 = max45678) || decide (volChoch = max45678)
  (vol678Ok && vol456Ok) || vol45678Ok

/-- G2/G3 volume condition (`src/detectors/choch_detector.py:616`):
`vol4`, `vol5` or `vol_choch ≥` against the maximum of the 4-5-6 cluster. -/
def volCondG23 (vol4 vol5 vol6 volChoch : ℚ) : Bool :=
  let max456 := max vol4 (max vol5 vol6)
  decide (vol4 = max456) || decide (vol5 = max456) || decide (volChoch ≥ max456)

/-- Group-specific up-confirmation (`src/detectors/choch_detector.py:582`):
price ceiling (`p5` for G1/G3, `p7` for G2) and the group volume condition;
`False` when `pattern_group` is unset or names no branch. -/
def confirmUpOf (group : Option String) (currentClose p5 p7 : ℚ)
    (vol4 vol5 vol6 vol7 vol8 volChoch : ℚ) : Bool :=
  match group with
  | none => false
  | some g =>
    if g = "G1" then decide (currentClose ≤ p5) && volCondG1 vol4 vol5 vol6 vol7 vol8 volChoch
    else if g = "G2" then decide (currentClose ≤ p7) && volCondG23 vol4 vol5 vol6 volChoch
    else if g = "G3" then decide (currentClose ≤ p5) && volCondG23 vol4 vol5 vol6 volChoch
    else false

/-- Group-specific down-confirmation (`src/detectors/choch_detector.py:636`). -/
def confirmDownOf (group : Option String) (currentClose p5 p7 : ℚ)
    (vol4 vol5 vol6 vol7 vol8 volChoch : ℚ) : Bool :=
  match group with
  | none => false
  | some g =>
    if g = "G1" then decide (currentClose ≥ p5) && volCondG1 vol4 vol5 vol6 vol7 vol8 volChoch
    else if g = "G2" then decide (currentClose ≥ p7) && volCondG23 vol4 vol5 vol6 volChoch
    else if g = "G3" then decide (currentClose ≥ p5) && volCondG23 vol4 vol5 vol6 volChoch
    else false

/-- `ChochDetector.check_choch` (`src/detectors/choch_detector.py:434`).
Result `none` models the uncaught `TypeError` Python would raise when
`state.pivot6` is still `None` at the comparison on line 523; every other
path returns `some (fire_up, fire_down, state)` with the state mutated
exactly when a signal fires. -/
def checkChoch (df : List Candle) (s : TimeframeState) (currentIdx : Nat) :
    Option (Bool × Bool × TimeframeState) :=
  if pivotCount s < 8 then some (false, false, s) else
  match s.lastEightBarIdx with
  | none => some (false, false, s)
  | some lastEight =>
    if ¬ lastEight < currentIdx then some (false, false, s) else
    if ¬ currentIdx < df.length then some (false, false, s) else
    if currentIdx < 2 then some (false, false, s) else
    let current := df.getD currentIdx junkCandle
    let prevIdx := currentIdx - 1
    let prev := df.getD prevIdx junkCandle
    let prePrev := df.getD (currentIdx - 2) junkCandle
    let e8 := pivotFromEnd s 0
    let e7 := pivotFromEnd s 1
    let e6 := pivotFromEnd s 2
    let e5 := pivotFromEnd s 3
    let e4 := pivotFromEnd s 4
    let e2 := pivotFromEnd s 6
    match df.get? e8.bar, df.get? e7.bar, df.get? e6.bar, df.get? e5.bar, df.get? e4.bar with
    | some c8, some c7, some c6, some c5, some c4 =>
      let vol8 := c8.volume
      let vol7 := c7.volume
      let vol6 := c6.volume
      let vol5 := c5.volume
      let vol4 := c4.volume
      let volChoch := prev.volume
      match s.pivot6 with
      | none => none
      | some pivot6Val =>
        let chochUpBar := chochUpBarTest prev prePrev pivot6Val e2.price
        let chochDownBar := chochDownBarTest prev prePrev pivot6Val e2.price
        let chochBarIsPivot := decide (prevIdx = lastEight)
        let nineReady := decide (9 ≤ pivotCount s)
        let eff :=
          if chochBarIsPivot && nineReady then
            let r := checkEightPattern s df 1
            if r.up = true ∨ r.down = true then (r.up, r.down, r.b8.getD lastEight)
            else (s.lastEightUp, s.lastEightDown, lastEight)
          else (s.lastEightUp, s.lastEightDown, lastEight)
        if ¬ eff.2.2 < currentIdx then some (false, false, s) else
        let confirmUpBasic := confirmUpBasicTest current prePrev
        let confirmDownBasic := confirmDownBasicTest current prePrev
        let baseUp := eff.2.1 && chochUpBar && confirmUpBasic
        let baseDown := eff.1 && chochDownBar && confirmDownBasic
        let confirmUp :=
          if baseUp then
            confirmUpOf s.patternGroup current.close e5.price e7.price
              vol4 vol5 vol6 vol7 vol8 volChoch
          else false
        let confirmDown :=
          if baseDown then
            confirmDownOf s.patternGroup current.close e5.price e7.price
              vol4 vol5 vol6 vol7 vol8 volChoch
          else false
        if !s.chochLocked && (confirmUp || confirmDown) then
          some (confirmUp, confirmDown,
            { s with
              chochLocked := true
              chochBarIdx := some prevIdx
              chochPrice := some prev.close })
        else some (false, false, s)
    | _, _, _, _, _ => some (false, false, s)

/-- Configuration with the defaults of `ChochDetector.__init__` and every
variant allowed. -/
def cfgAll : DetectorConfig :=
  { left := 1, right := 1, keepPivots := 200,
    allowPH1 := true, allowPH2 := true, allowPH3 := true,
    allowPL1 := true, allowPL2 := true, allowPL3 := true }

/-- Configuration allowing only the PH1 variant. -/
def cfgPH1Only : DetectorConfig :=
  { left := 1, right := 1, keepPivots := 200,
    allowPH1 := true, allowPH2 := false, allowPH3 := false,
    allowPL1 := false, allowPL2 := false, allowPL3 := false }

/-- Eight-bar window whose only variant-matched (and allowed) pivots are
the PH1 pivot highs at positions 1 and 6: four bars lie strictly between
them, so the synthetic-pivot insertion is skipped by the gap cap. -/
def dfGap4 : List Candle :=
  [⟨7, 10, 5, 8, 1⟩, ⟨17, 20, 15, 18, 1⟩, ⟨10, 12, 8, 9, 1⟩, ⟨8, 11, 7, 9, 1⟩,
   ⟨7, 10, 6, 8, 1⟩, ⟨6, 9, 5, 7, 1⟩, ⟨15, 19, 14, 16, 1⟩, ⟨7, 10, 6, 8, 1⟩]

/-- Nineteen-bar window that rebuilds to the eight alternating pivots
H 200, L 150, H 190, L 100, H 130, L 110, H 140, L 90 at positions
1, 3, 5, 7, 9, 11, 13, 15 — a valid G2 downtrend — and then fires a CHoCH
up on the confirmation bar 18 (CHoCH bar 17, pre-CHoCH bar 16). -/
def dfG2Down : List Candle :=
  [⟨170, 180, 160, 170, 1⟩, ⟨185, 200, 170, 190, 1⟩, ⟨180, 195, 155, 175, 1⟩,
   ⟨170, 186, 150, 165, 1⟩, ⟨170, 187, 152, 175, 1⟩, ⟨180, 190, 165, 185, 1⟩,
   ⟨140, 150, 110, 120, 1⟩, ⟨115, 120, 100, 105, 10⟩, ⟨110, 125, 105, 120, 1⟩,
   ⟨120, 130, 115, 125, 5⟩, ⟨115, 122, 111, 118, 1⟩, ⟨115, 118, 110, 112, 5⟩,
   ⟨115, 121, 112, 118, 1⟩, ⟨120, 140, 113, 135, 30⟩, ⟨120, 135, 103, 110, 1⟩,
   ⟨118, 119, 90, 115, 5⟩, ⟨100, 120, 95, 110, 1⟩, ⟨110, 126, 105, 125, 0⟩,
   ⟨112, 137, 110, 135, 1⟩]

/-- Nineteen-bar window that rebuilds to the eight alternating pivots
H 300, L 250, H 290, L 180, H 200, L 160, H 190, L 140 at positions
1, 3, 5, 7, 9, 11, 13, 15 — a valid G1 downtrend — and then fires a CHoCH
up on bar 18 whose CHoCH bar close 170 does NOT exceed the pivot-4 price
180. -/
def dfG1Down : List Candle :=
  [⟨260, 280, 252, 270, 1⟩, ⟨270, 300, 260, 290, 1⟩, ⟨270, 295, 255, 280, 1⟩,
   ⟨260, 285, 250, 270, 1⟩, ⟨260, 286, 252, 270, 1⟩, ⟨270, 290, 254, 280, 1⟩,
   ⟨210, 220, 190, 200, 1⟩, ⟨185, 190, 180, 183, 1⟩, ⟨190, 195, 185, 192, 1⟩,
   ⟨190, 200, 188, 195, 1⟩, ⟨180, 193, 168, 175, 1⟩, ⟨170, 185, 160, 165, 1⟩,
   ⟨170, 186, 165, 180, 1⟩, ⟨180, 190, 170, 185, 1⟩, ⟨165, 175, 150, 155, 1⟩,
   ⟨161, 162, 140, 158, 50⟩, ⟨150, 165, 145, 155, 1⟩, ⟨155, 172, 150, 170, 1⟩,
   ⟨185, 199, 180, 195, 1⟩]

/-- Helper: a locked state makes `check_choch` return no signal and leave
the state untouched (or raise, when `pivot6` is unset); the fire block is
guarded by `not state.choch_locked`. -/
theorem checkChoch_locked_no_fire (df : List Candle) (s : TimeframeState) (i : Nat)
    (h : s.chochLocked = true) :
    checkChoch df s i = none ∨ checkChoch df s i = some (false, false, s) := by
  unfold checkChoch
  repeat' split
  all_goals try simp_all
  all_goals repeat' split
  all_goals simp_all

set_option maxHeartbeats 2000000 in
/-- Helper: anatomy of an up-signal of `check_choch`: firing up needs at
least three bars, the CHoCH-up bar test, the basic up-confirmation and the
group-specific up-confirmation, with all five pivot-bar volume lookups
succeeding. -/
theorem checkChoch_fire_up_anatomy (df : List Candle) (s : TimeframeState) (i : Nat)
    (d : Bool) (s2 : TimeframeState)
    (h : checkChoch df s i = some (true, d, s2)) :
    2 ≤ i ∧ i < df.length ∧
    (∃ pv6, s.pivot6 = some pv6 ∧
      chochUpBarTest (df.getD (i - 1) junkCandle) (df.getD (i - 2) junkCandle)
        pv6 (pivotFromEnd s 6).price = true) ∧
    confirmUpBasicTest (df.getD i junkCandle) (df.getD (i - 2) junkCandle) = true ∧
    ∃ c8 c7 c6 c5 c4,
      df.get? (pivotFromEnd s 0).bar = some c8 ∧ df.get? (pivotFromEnd s 1).bar = some c7 ∧
      df.get? (pivotFromEnd s 2).bar = some c6 ∧ df.get? (pivotFromEnd s 3).bar = some c5 ∧
      df.get? (pivotFromEnd s 4).bar = some c4 ∧
      confirmUpOf s.patternGroup (df.getD i junkCandle).close
        (pivotFromEnd s 3).price (pivotFromEnd s 1).price
        c4.volume c5.volume c6.volume c7.volume c8.volume
        (df.getD (i - 1) junkCandle).volume = true := by
  unfold checkChoch at h
  try simp only [] at h
  repeat' split at h
  all_goals try (exact Option.noConfusion h)
  all_goals simp only [Option.some.injEq, Prod.mk.injEq] at h
  all_goals try (exact absurd h.1 Bool.false_ne_true)
  all_goals
    obtain ⟨hcu, hcd, hst⟩ := h
    simp only [Bool.and_eq_true] at *
    casesm* _ ∧ _
    exact ⟨by omega, by omega, ⟨_, by assumption, by assumption⟩, by assumption,
      _, _, _, _, _, by assumption, by assumption, by assumption, by assumption,
      by assumption, hcu⟩

set_option maxHeartbeats 2000000 in
/-- Helper: anatomy of a down-signal of `check_choch`, the mirror of
`checkChoch_fire_up_anatomy`. -/
theorem checkChoch_fire_down_anatomy (df : List Candle) (s : TimeframeState) (i : Nat)
    (u : Bool) (s2 : TimeframeState)
    (h : checkChoch df s i = some (u, true, s2)) :
    2 ≤ i ∧ i < df.length ∧
    (∃ pv6, s.pivot6 = some pv6 ∧
      chochDownBarTest (df.getD (i - 1) junkCandle) (df.getD (i - 2) junkCandle)
        pv6 (pivotFromEnd s 6).price = true) ∧
    confirmDownBasicTest (df.getD i junkCandle) (df.getD (i - 2) junkCandle) = true ∧
    ∃ c8 c7 c6 c5 c4,
      df.get? (pivotFromEnd s 0).bar = some c8 ∧ df.get? (pivotFromEnd s 1).bar = some c7 ∧
      df.get? (pivotFromEnd s 2).bar = some c6 ∧ df.get? (pivotFromEnd s 3).bar = some c5 ∧
      df.get? (pivotFromEnd s 4).bar = some c4 ∧
      confirmDownOf s.patternGroup (df.getD i junkCandle).close
        (pivotFromEnd s 3).price (pivotFromEnd s 1).price
        c4.volume c5.volume c6.volume c7.volume c8.volume
        (df.getD (i - 1) junkCandle).volume = true := by
  unfold checkChoch at h
  try simp only [] at h
  repeat' split at h
  all_goals try (exact Option.noConfusion h)
  all_goals simp only [Option.some.injEq, Prod.mk.injEq] at h
  all_goals try (exact absurd h.2.1 Bool.false_ne_true)
  all_goals
    obtain ⟨hcu, hcd, hst⟩ := h
    simp only [Bool.and_eq_true] at *
    casesm* _ ∧ _
    exact ⟨by omega, by omega, ⟨_, by assumption, by assumption⟩, by assumption,
      _, _, _, _, _, by assumption, by assumption, by assumption, by assumption,
      by assumption, hcd⟩

set_option maxHeartbeats 2000000 in
/-- Helper: when `check_choch` fires it sets the lock together with the
CHoCH bar index and the CHoCH bar close, leaving the pivots and the
pattern group untouched. -/
theorem checkChoch_fire_sets_lock (df : List Candle) (s : TimeframeState) (i : Nat)
    (u d : Bool) (s2 : TimeframeState)
    (h : checkChoch df s i = some (u, d, s2)) (hud : u = true ∨ d = true) :
    s2.chochLocked = true ∧ s2.chochBarIdx = some (i - 1) ∧
    s2.chochPrice = some ((df.getD (i - 1) junkCandle).close) ∧
    s2.patternGroup = s.patternGroup := by
  unfold checkChoch at h
  try simp only [] at h
  repeat' split at h
  all_goals try (exact Option.noConfusion h)
  all_goals simp only [Option.some.injEq, Prod.mk.injEq] at h
  all_goals obtain ⟨hu, hd, hst⟩ := h
  all_goals subst hst
  all_goals rcases hud with h' | h' <;> simp_all

/-- Helper: the argmin position lies inside the list. -/
theorem argminLow_fst_lt (l : List Candle) (h : l ≠ []) : (argminLow l).1 < l.length := by
  induction l with
  | nil => simp at h
  | cons c rest ih =>
    cases rest with
    | nil => simp [argminLow]
    | cons c2 rest2 =>
      unfold argminLow
      simp only []
      split_ifs
      · simp
      · simpa using Nat.succ_lt_succ (ih (by simp))

/-- Helper: the argmin value is the low of the candle at the argmin position. -/
theorem argminLow_get (l : List Candle) (h : l ≠ []) :
    ∃ c, l[(argminLow l).1]? = some c ∧ (argminLow l).2 = c.low := by
  induction l with
  | nil => simp at h
  | cons c rest ih =>
    cases rest with
    | nil => exact ⟨c, by simp [argminLow], by simp [argminLow]⟩
    | cons c2 rest2 =>
      unfold argminLow
      simp only []
      split_ifs
      · exact ⟨c, by simp, by simp⟩
      · obtain ⟨c3, hg, hv⟩ := ih (by simp)
        exact ⟨c3, by simpa using hg, by simpa using hv⟩

/-- Helper: the argmin value is a lower bound of every low in the list. -/
theorem argminLow_le (l : List Candle) (c : Candle) (hc : c ∈ l) :
    (argminLow l).2 ≤ c.low := by
  induction l with
  | nil => simp at hc
  | cons c1 rest ih =>
    cases rest with
    | nil =>
      rcases List.mem_singleton.mp hc with rfl
      simp [argminLow]
    | cons c2 rest2 =>
      unfold argminLow
      simp only []
      rcases List.mem_cons.mp hc with rfl | hmem
      · split_ifs with hle
        · simp
        · simp only []
          exact le_of_lt (lt_of_le_of_lt (by simp) (lt_of_not_le hle))
      · have := ih hmem
        split_ifs with hle
        · exact le_trans (by simpa using hle) this
        · simpa using this

/-- Helper: the argmax position lies inside the list. -/
theorem argmaxHigh_fst_lt (l : List Candle) (h : l ≠ []) : (argmaxHigh l).1 < l.length := by
  induction l with
  | nil => simp at h
  | cons c rest ih =>
    cases rest with
    | nil => simp [argmaxHigh]
    | cons c2 rest2 =>
      unfold argmaxHigh
      simp only []
      split_ifs
      · simp
      · simpa using Nat.succ_lt_succ (ih (by simp))

/-- Helper: the argmax value is the high of the candle at the argmax position. -/
theorem argmaxHigh_get (l : List Candle) (h : l ≠ []) :
    ∃ c, l[(argmaxHigh l).1]? = some c ∧ (argmaxHigh l).2 = c.high := by
  induction l with
  | nil => simp at h
  | cons c rest ih =>
    cases rest with
    | nil => exact ⟨c, by simp [argmaxHigh], by simp [argmaxHigh]⟩
    | cons c2 rest2 =>
      unfold argmaxHigh
      simp only []
      split_ifs
      · exact ⟨c, by simp, by simp⟩
      · obtain ⟨c3, hg, hv⟩ := ih (by simp)
        exact ⟨c3, by simpa using hg, by simpa using hv⟩

/-- Helper: the argmax value is an upper bound of every high in the list. -/
theorem argmaxHigh_le (l : List Candle) (c : Candle) (hc : c ∈ l) :
    c.high ≤ (argmaxHigh l).2 := by
  induction l with
  | nil => simp at hc
  | cons c1 rest ih =>
    cases rest with
    | nil =>
      rcases List.mem_singleton.mp hc with rfl
      simp [argmaxHigh]
    | cons c2 rest2 =>
      unfold argmaxHigh
      simp only []
      rcases List.mem_cons.mp hc with rfl | hmem
      · split_ifs with hle
        · simp
        · simp only []
          exact le_of_lt (lt_of_lt_of_le (lt_of_not_le hle) (by simp))
      · have := ih hmem
        split_ifs with hle
        · exact le_trans this (by simpa using hle)
        · simpa using this

/-- Helper: full behaviour of `insert_fake_pivot` on a same-type pair of
pivots one to three bars apart: it succeeds, storing a synthetic pivot of
the opposite type at a bar strictly between the two, whose price is the
extreme of the whole gap slice. -/
theorem insertFakePivot_small_gap_spec (s : TimeframeState) (df : List Candle)
    (lastBar : Nat) (lastHigh : Bool) (newBar : Nat) (newHigh : Bool)
    (htype : lastHigh = newHigh)
    (hgap1 : lastBar + 2 ≤ newBar) (hgap3 : newBar ≤ lastBar + 4)
    (hlen : newBar ≤ df.length) :
    (insertFakePivot s df lastBar lastHigh newBar newHigh).1 = true ∧
    ∃ fb fp,
      (insertFakePivot s df lastBar lastHigh newBar newHigh).2 =
        { storePivot s fb fp (!newHigh) with
          lastPivotBar := some fb
          lastPivotPrice := some fp } ∧
      lastBar < fb ∧ fb < newBar ∧
      (∃ c, df[fb]? = some c ∧ fp = (if newHigh then c.low else c.high)) ∧
      (∀ j c, lastBar < j → j < newBar → df[j]? = some c →
        (if newHigh then fp ≤ c.low else c.high ≤ fp)) := by
  have hslice : ((df.drop (lastBar + 1)).take
      (((newBar : Int) - (lastBar : Int) - 1).toNat)).length = newBar - lastBar - 1 := by
    simp [List.length_take, List.length_drop]
    omega
  have hne2 : (df.drop (lastBar + 1)).take
      (((newBar : Int) - (lastBar : Int) - 1).toNat) ≠ [] := by
    intro hnil
    rw [hnil] at hslice
    simp at hslice
    omega
  have hget : ∀ k, k < newBar - lastBar - 1 →
      ((df.drop (lastBar + 1)).take (((newBar : Int) - (lastBar : Int) - 1).toNat))[k]? =
        df[lastBar + 1 + k]? := by
    intro k hk
    rw [List.getElem?_take]
    have hk2 : k < ((newBar : Int) - (lastBar : Int) - 1).toNat := by omega
    simp only [hk2, if_true, List.getElem?_drop]
  unfold insertFakePivot
  simp only []
  rw [if_neg (show ¬ lastHigh ≠ newHigh by simp [htype])]
  rw [if_neg (show ¬ ((newBar : Int) - (lastBar : Int) - 1 ≤ 0) by omega)]
  rw [if_neg (show ¬ (3 < (newBar : Int) - (lastBar : Int) - 1) by omega)]
  rw [if_neg (show ¬ ((df.drop (lastBar + 1)).take
      (((newBar : Int) - (lastBar : Int) - 1).toNat)).length = 0 by rw [hslice]; omega)]
  cases newHigh with
  | true =>
    have hlt := argminLow_fst_lt _ hne2
    obtain ⟨c, hc, hv⟩ := argminLow_get _ hne2
    simp only [reduceIte]
    rw [if_pos (show lastBar < lastBar + 1 +
        (argminLow ((df.drop (lastBar + 1)).take
          (((newBar : Int) - (lastBar : Int) - 1).toNat))).1 ∧
        lastBar + 1 + (argminLow ((df.drop (lastBar + 1)).take
          (((newBar : Int) - (lastBar : Int) - 1).toNat))).1 < newBar from
      ⟨by omega, by omega⟩)]
    refine ⟨rfl, _, _, rfl, by omega, by omega, ?_, ?_⟩
    · refine ⟨c, ?_, by simpa using hv⟩
      rw [← hget _ (by omega)]
      exact hc
    · intro j c2 hj1 hj2 hjc
      have hk : j - lastBar - 1 < newBar - lastBar - 1 := by omega
      have hjg : ((df.drop (lastBar + 1)).take
          (((newBar : Int) - (lastBar : Int) - 1).toNat))[j - lastBar - 1]? = some c2 := by
        rw [hget _ hk, show lastBar + 1 + (j - lastBar - 1) = j by omega]
        exact hjc
      simpa using argminLow_le _ _ (List.getElem?_mem hjg)
  | false =>
    have hlt := argmaxHigh_fst_lt _ hne2
    obtain ⟨c, hc, hv⟩ := argmaxHigh_get _ hne2
    simp only [Bool.false_eq_true, reduceIte]
    rw [if_pos (show lastBar < lastBar + 1 +
        (argmaxHigh ((df.drop (lastBar + 1)).take
          (((newBar : Int) - (lastBar : Int) - 1).toNat))).1 ∧
        lastBar + 1 + (argmaxHigh ((df.drop (lastBar + 1)).take
          (((newBar : Int) - (lastBar : Int) - 1).toNat))).1 < newBar from
      ⟨by omega, by omega⟩)]
    refine ⟨rfl, _, _, rfl, by omega, by omega, ?_, ?_⟩
    · refine ⟨c, ?_, by simpa using hv⟩
      rw [← hget _ (by omega)]
      exact hc
    · intro j c2 hj1 hj2 hjc
      have hk : j - lastBar - 1 < newBar - lastBar - 1 := by omega
      have hjg : ((df.drop (lastBar + 1)).take
          (((newBar : Int) - (lastBar : Int) - 1).toNat))[j - lastBar - 1]? = some c2 := by
        rw [hget _ hk, show lastBar + 1 + (j - lastBar - 1) = j by omega]
        exact hjc
      simpa using argmaxHigh_le _ _ (List.getElem?_mem hjg)

/-- C3 (amended): when two same-type pivots are separated by one to three
bars, `insert_fake_pivot` does insert a synthetic pivot of the opposite
type, at a bar strictly between the two, whose price is the extreme
(lowest low for consecutive highs, highest high for consecutive lows) of
the whole gap, scanning every bar of the gap; the gap-size cap of the code
restricts this to gaps of at most three bars. -/
theorem insert_fake_pivot_small_gap (s : TimeframeState) (df : List Candle)
    (lastBar : Nat) (lastHigh : Bool) (newBar : Nat) (newHigh : Bool)
    (htype : lastHigh = newHigh)
    (hgap1 : lastBar + 2 ≤ newBar) (hgap3 : newBar ≤ lastBar + 4)
    (hlen : newBar ≤ df.length) :
    (insertFakePivot s df lastBar lastHigh newBar newHigh).1 = true ∧
    ∃ fb fp,
      (insertFakePivot s df lastBar lastHigh newBar newHigh).2 =
        { storePivot s fb fp (!newHigh) with
          lastPivotBar := some fb
          lastPivotPrice := some fp } ∧
      lastBar < fb ∧ fb < newBar ∧
      (∃ c, df[fb]? = some c ∧ fp = (if newHigh then c.low else c.high)) ∧
      (∀ j c, lastBar < j → j < newBar → df[j]? = some c →
        (if newHigh then fp ≤ c.low else c.high ≤ fp)) :=
  insertFakePivot_small_gap_spec s df lastBar lastHigh newBar newHigh
    htype hgap1 hgap3 hlen

/-- C3 (counterexample): with both pivots of the eight-bar window `dfGap4`
being pivot highs four bars apart (a positive gap), `insert_fake_pivot`
inserts nothing and leaves the state unchanged — the gap cap at three bars
contradicts the claim that the entire gap is always scanned regardless of
size. -/
theorem insert_fake_pivot_gap_cap_counterexample :
    (0 : Int) < (6 : Int) - 1 - 1 ∧
    insertFakePivot (storePivot (initState cfgPH1Only) 1 20 true) dfGap4 1 true 6 true =
      (false, storePivot (initState cfgPH1Only) 1 20 true) := by
  decide

/-- Witness for `insert_fake_pivot_small_gap` on a two-bar gap inside
`dfGap4`. -/
theorem insert_fake_pivot_small_gap_witness :
    (insertFakePivot (storePivot (initState cfgAll) 1 20 true) dfGap4 1 true 4 true).1 = true ∧
    ∃ fb fp,
      (insertFakePivot (storePivot (initState cfgAll) 1 20 true) dfGap4 1 true 4 true).2 =
        { storePivot (storePivot (initState cfgAll) 1 20 true) fb fp (!true) with
          lastPivotBar := some fb
          lastPivotPrice := some fp } ∧
      1 < fb ∧ fb < 4 ∧
      (∃ c, dfGap4[fb]? = some c ∧ fp = (if true then c.low else c.high)) ∧
      (∀ j c, 1 < j → j < 4 → dfGap4[j]? = some c →
        (if true then fp ≤ c.low else c.high ≤ fp)) :=
  insert_fake_pivot_small_gap (storePivot (initState cfgAll) 1 20 true) dfGap4
    1 true 4 true rfl (by decide) (by decide) (by decide)

def Rgap : PivotEntry → PivotEntry → Prop :=
  fun a b => a.isHigh = b.isHigh → a.bar + 4 < b.bar

theorem classify_dual_impossible (df : List Candle) (i : Nat)
    (h : classifyVariant df i true ≠ "NA") : classifyVariant df i false = "NA" := by
  unfold classifyVariant at h ⊢
  simp only [reduceIte, Bool.false_eq_true] at h ⊢
  split_ifs at h ⊢ <;>
    first
    | rfl
    | (exact absurd rfl h)
    | (exfalso; casesm* _ ∧ _; linarith)

theorem classify_adjacent_high (df : List Candle) (i : Nat)
    (h : classifyVariant df i true ≠ "NA") : classifyVariant df (i + 1) true = "NA" := by
  unfold classifyVariant at h ⊢
  simp only [reduceIte, Nat.add_sub_cancel] at h ⊢
  split_ifs at h ⊢ <;>
    first
    | rfl
    | (exact absurd rfl h)
    | (exfalso; casesm* _ ∧ _; linarith)

theorem classify_adjacent_low (df : List Candle) (i : Nat)
    (h : classifyVariant df i false ≠ "NA") : classifyVariant df (i + 1) false = "NA" := by
  unfold classifyVariant at h ⊢
  simp only [reduceIte, Bool.false_eq_true, Nat.add_sub_cancel] at h ⊢
  split_ifs at h ⊢ <;>
    first
    | rfl
    | (exact absurd rfl h)
    | (exfalso; casesm* _ ∧ _; linarith)

theorem pivotFromEnd_zero (s : TimeframeState) (p : PivotEntry)
    (hp : s.pivots.getLast? = some p) : pivotFromEnd s 0 = p := by
  unfold pivotFromEnd
  rw [List.getLast?_eq_getElem?] at hp
  rw [List.getD_eq_getElem?_getD, Nat.sub_zero, hp]
  rfl

theorem chain_drop_pe (R : PivotEntry → PivotEntry → Prop) (l : List PivotEntry) (n : Nat)
    (h : List.Chain' R l) : List.Chain' R (l.drop n) := by
  induction n with
  | zero => exact h
  | succ n ih =>
    rw [← List.tail_drop]
    exact List.Chain'.tail ih

theorem getLast_drop_of_lt (l : List PivotEntry) (n : Nat) (h : n < l.length) :
    (l.drop n).getLast? = l.getLast? := by
  rw [List.getLast?_eq_getElem?, List.getLast?_eq_getElem?, List.length_drop,
    List.getElem?_drop]
  congr 1
  omega

theorem chain_capAppend (R : PivotEntry → PivotEntry → Prop) (k : Nat)
    (l : List PivotEntry) (x : PivotEntry) (hl : List.Chain' R l)
    (hlast : ∀ p, l.getLast? = some p → R p x) :
    List.Chain' R (capAppend k l x) := by
  have happ : List.Chain' R (l ++ [x]) := by
    rw [List.chain'_append]
    refine ⟨hl, List.chain'_singleton x, ?_⟩
    intro a ha b hb
    simp only [List.head?_cons, Option.mem_def, Option.some.injEq] at hb
    subst hb
    exact hlast a ha
  unfold capAppend
  simp only []
  split
  · exact chain_drop_pe R _ _ happ
  · exact happ

theorem getLast_capAppend (k : Nat) (hk : k ≠ 0) (l : List PivotEntry) (x : PivotEntry) :
    (capAppend k l x).getLast? = some x := by
  unfold capAppend
  simp only []
  split
  next h =>
    rw [getLast_drop_of_lt]
    · exact List.getLast?_concat l
    · simp only [List.length_append, List.length_cons, List.length_nil] at h ⊢
      omega
  next h => exact List.getLast?_concat l

theorem capAppend_zero (l : List PivotEntry) (x : PivotEntry) : capAppend 0 l x = [] := by
  unfold capAppend
  simp only []
  rw [if_pos]
  · rw [Nat.sub_zero, List.drop_length]
  · simp [List.length_append]

theorem capAppend_step (k : Nat) (l : List PivotEntry) (e : PivotEntry)
    (hl : List.Chain' Rgap l)
    (hlaste : ∀ q, l.getLast? = some q → Rgap q e) :
    List.Chain' Rgap (capAppend k l e) ∧
    ∀ p, (capAppend k l e).getLast? = some p → p.bar = e.bar ∧ p.isHigh = e.isHigh := by
  constructor
  · exact chain_capAppend Rgap k l e hl hlaste
  · intro p hp
    rcases Nat.eq_zero_or_pos k with hk | hk
    · rw [hk, capAppend_zero] at hp
      exact absurd hp (by simp)
    · rw [getLast_capAppend k (by omega)] at hp
      rw [← Option.some.inj hp]
      exact ⟨rfl, rfl⟩

theorem insertFakePivot_types_differ (s : TimeframeState) (df : List Candle)
    (lastBar : Nat) (lastHigh : Bool) (newBar : Nat) (newHigh : Bool)
    (h : lastHigh ≠ newHigh) :
    insertFakePivot s df lastBar lastHigh newBar newHigh = (false, s) := by
  unfold insertFakePivot
  rw [if_pos h]

theorem insertFakePivot_big_gap (s : TimeframeState) (df : List Candle)
    (lastBar : Nat) (lastHigh : Bool) (newBar : Nat) (newHigh : Bool)
    (h : lastBar + 5 ≤ newBar) :
    insertFakePivot s df lastBar lastHigh newBar newHigh = (false, s) := by
  unfold insertFakePivot
  simp only []
  split_ifs <;> first | rfl | (exfalso; omega)

theorem rebuildStep_pivots_nil (df : List Candle) (s : TimeframeState) (c : PivotCand)
    (h : s.pivots = []) :
    (rebuildStep df s c).pivots =
      capAppend s.keepPivots s.pivots ⟨c.i, c.price, c.isHigh⟩ := by
  have h0 : ¬ 0 < pivotCount s := by
    unfold pivotCount
    rw [h]
    simp
  unfold rebuildStep
  rw [if_neg h0]
  rfl

theorem rebuildStep_pivots_cons (df : List Candle) (s : TimeframeState) (c : PivotCand)
    (h0 : 0 < pivotCount s) :
    (rebuildStep df s c).pivots =
      capAppend
        (insertFakePivot s df (pivotFromEnd s 0).bar (pivotFromEnd s 0).isHigh
          c.i c.isHigh).2.keepPivots
        (insertFakePivot s df (pivotFromEnd s 0).bar (pivotFromEnd s 0).isHigh
          c.i c.isHigh).2.pivots
        ⟨c.i, c.price, c.isHigh⟩ := by
  unfold rebuildStep
  rw [if_pos h0]
  rfl

theorem rebuildStep_chain (df : List Candle) (s : TimeframeState) (c : PivotCand)
    (hchain : List.Chain' Rgap s.pivots)
    (hlast : ∀ p, s.pivots.getLast? = some p →
      classifyVariant df p.bar p.isHigh ≠ "NA" ∧ p.bar < c.i)
    (hci : c.i < df.length)
    (hcc : classifyVariant df c.i c.isHigh ≠ "NA") :
    List.Chain' Rgap (rebuildStep df s c).pivots ∧
    ∀ p, (rebuildStep df s c).pivots.getLast? = some p →
      p.bar = c.i ∧ p.isHigh = c.isHigh := by
  by_cases h0 : 0 < pivotCount s
  · have hne : s.pivots ≠ [] := by
      intro h
      unfold pivotCount at h0
      rw [h] at h0
      simp at h0
    obtain ⟨p, hp⟩ := Option.isSome_iff_exists.mp (List.getLast?_isSome.mpr hne)
    have hpfe : pivotFromEnd s 0 = p := pivotFromEnd_zero s p hp
    obtain ⟨hpcl, hpbar⟩ := hlast p hp
    rw [rebuildStep_pivots_cons df s c h0, hpfe]
    by_cases htype : p.isHigh = c.isHigh
    · by_cases hgap4 : p.bar + 4 < c.i
      · rw [insertFakePivot_big_gap s df p.bar p.isHigh c.i c.isHigh (by omega)]
        refine capAppend_step s.keepPivots s.pivots _ hchain ?_
        intro q hq _
        have hqp : q = p := (Option.some.inj (hp.symm.trans hq)).symm
        rw [hqp]
        exact hgap4
      · rcases Nat.lt_or_ge (p.bar + 1) c.i with hgap1 | hgap0
        · obtain ⟨-, fb, fp, heq, -, -, -, -⟩ :=
            insertFakePivot_small_gap_spec s df p.bar p.isHigh c.i c.isHigh htype
              (by omega) (by omega) (by omega)
          rw [heq]
          show List.Chain' Rgap (capAppend s.keepPivots
              (capAppend s.keepPivots s.pivots ⟨fb, fp, !c.isHigh⟩)
              ⟨c.i, c.price, c.isHigh⟩) ∧ _
          have hfR : ∀ q, s.pivots.getLast? = some q →
              Rgap q (⟨fb, fp, !c.isHigh⟩ : PivotEntry) := by
            intro q hq hq2
            have hqp : q = p := (Option.some.inj (hp.symm.trans hq)).symm
            rw [hqp, htype] at hq2
            exact absurd hq2 (by simp)
          have hinner := capAppend_step s.keepPivots s.pivots ⟨fb, fp, !c.isHigh⟩ hchain hfR
          refine capAppend_step s.keepPivots _ _ hinner.1 ?_
          intro q hq hq2
          have h1 := (hinner.2 q hq).2
          rw [hq2] at h1
          exact absurd h1 (by simp)
        · exfalso
          have hcieq : c.i = p.bar + 1 := by omega
          rw [← htype] at hcc
          rw [hcieq] at hcc
          cases hh : p.isHigh with
          | true =>
            rw [hh] at hcc hpcl
            exact hcc (classify_adjacent_high df p.bar hpcl)
          | false =>
            rw [hh] at hcc hpcl
            exact hcc (classify_adjacent_low df p.bar hpcl)
    · rw [insertFakePivot_types_differ s df p.bar p.isHigh c.i c.isHigh htype]
      refine capAppend_step s.keepPivots s.pivots _ hchain ?_
      intro q hq hq2
      have hqp : q = p := (Option.some.inj (hp.symm.trans hq)).symm
      rw [hqp] at hq2
      exact absurd hq2 htype
  · have hnil : s.pivots = [] := by
      unfold pivotCount at h0
      exact List.length_eq_zero.mp (by omega)
    rw [rebuildStep_pivots_nil df s c hnil]
    refine capAppend_step s.keepPivots s.pivots _ hchain ?_
    intro q hq
    rw [hnil] at hq
    exact absurd hq (by simp)

theorem detect_mem (cfg : DetectorConfig) (df : List Candle) (c : PivotCand)
    (hc : c ∈ detectPivotsWithVariants cfg df) :
    c.i < df.length ∧ classifyVariant df c.i c.isHigh ≠ "NA" := by
  unfold detectPivotsWithVariants at hc
  obtain ⟨i, hi, hc2⟩ := List.mem_flatMap.mp hc
  have hib : i < df.length := by
    have h := List.mem_range'_1.mp hi
    omega
  simp only [] at hc2
  rcases List.mem_append.mp hc2 with hm | hm <;>
    (split_ifs at hm with h1 h2 <;>
      first
      | (rw [List.mem_singleton] at hm
         subst hm
         exact ⟨hib, h2.1⟩)
      | exact absurd hm (List.not_mem_nil c))

theorem pairwise_flatMap_lt (f : Nat → List PivotCand)
    (hval : ∀ i c, c ∈ f i → c.i = i)
    (hone : ∀ i, List.Pairwise (fun a b : PivotCand => a.i < b.i) (f i)) :
    ∀ (a n : Nat),
      List.Pairwise (fun a b : PivotCand => a.i < b.i) ((List.range' a n).flatMap f) := by
  intro a n
  induction n generalizing a with
  | zero => simp
  | succ n ih =>
    have hcons : List.range' a (n + 1) = a :: List.range' (a + 1) n := rfl
    rw [hcons, List.flatMap_cons, List.pairwise_append]
    refine ⟨hone a, ih (a + 1), ?_⟩
    intro x hx y hy
    obtain ⟨j, hj, hyj⟩ := List.mem_flatMap.mp hy
    have hxa := hval a x hx
    have hyj2 := hval j y hyj
    have hjb := List.mem_range'_1.mp hj
    omega

theorem detect_pairwise (cfg : DetectorConfig) (df : List Candle) :
    List.Pairwise (fun a b : PivotCand => a.i < b.i) (detectPivotsWithVariants cfg df) := by
  unfold detectPivotsWithVariants
  refine pairwise_flatMap_lt _ ?_ ?_ cfg.left (df.length - cfg.right - cfg.left)
  · intro i c hc
    simp only [] at hc
    rcases List.mem_append.mp hc with hm | hm <;>
      (split_ifs at hm with h1 h2 <;>
        first
        | (rw [List.mem_singleton] at hm
           subst hm
           rfl)
        | exact absurd hm (List.not_mem_nil c))
  · intro i
    simp only []
    rw [List.pairwise_append]
    refine ⟨?_, ?_, ?_⟩
    · split_ifs <;> first | exact List.pairwise_singleton _ _ | exact List.Pairwise.nil
    · split_ifs <;> first | exact List.pairwise_singleton _ _ | exact List.Pairwise.nil
    · intro x hx y hy
      exfalso
      have hxc : classifyVariant df i true ≠ "NA" := by
        split_ifs at hx with h1 h2
        · exact h2.1
        · exact absurd hx (List.not_mem_nil x)
        · exact absurd hx (List.not_mem_nil x)
      have hyc : classifyVariant df i false ≠ "NA" := by
        split_ifs at hy with h1 h2
        · exact h2.1
        · exact absurd hy (List.not_mem_nil y)
        · exact absurd hy (List.not_mem_nil y)
      exact hyc (classify_dual_impossible df i hxc)

theorem rebuild_fold_chain (df : List Candle) (cands : List PivotCand) :
    ∀ (s : TimeframeState),
      List.Chain' Rgap s.pivots →
      (∀ c ∈ cands, c.i < df.length ∧ classifyVariant df c.i c.isHigh ≠ "NA") →
      List.Pairwise (fun a b : PivotCand => a.i < b.i) cands →
      (∀ p, s.pivots.getLast? = some p →
        classifyVariant df p.bar p.isHigh ≠ "NA" ∧ ∀ c ∈ cands, p.bar < c.i) →
      List.Chain' Rgap ((cands.foldl (rebuildStep df) s).pivots) := by
  induction cands with
  | nil =>
    intro s hchain _ _ _
    exact hchain
  | cons c rest ih =>
    intro s hchain hmem hpw hlast
    rw [List.foldl_cons]
    have hcm := hmem c (List.mem_cons_self c rest)
    have hstep := rebuildStep_chain df s c hchain
      (fun p hp => ⟨(hlast p hp).1, (hlast p hp).2 c (List.mem_cons_self c rest)⟩)
      hcm.1 hcm.2
    refine ih (rebuildStep df s c) hstep.1
      (fun q hq => hmem q (List.mem_cons_of_mem c hq))
      (List.pairwise_cons.mp hpw).2 ?_
    intro p hp
    obtain ⟨hb, hh⟩ := hstep.2 p hp
    constructor
    · rw [hb, hh]
      exact hcm.2
    · intro q hq
      rw [hb]
      exact (List.pairwise_cons.mp hpw).1 q hq

theorem rebuild_chain (cfg : DetectorConfig) (df : List Candle) :
    List.Chain' Rgap (rebuildPivots cfg df).pivots := by
  unfold rebuildPivots
  simp only []
  split_ifs with h1 h2
  · exact List.chain'_nil
  · exact rebuild_fold_chain df (detectPivotsWithVariants cfg df) (initState cfg)
      List.chain'_nil (fun c hc => detect_mem cfg df c hc) (detect_pairwise cfg df)
      (fun p hp => absurd hp (by simp [initState]))
  · exact rebuild_fold_chain df (detectPivotsWithVariants cfg df) (initState cfg)
      List.chain'_nil (fun c hc => detect_mem cfg df c hc) (detect_pairwise cfg df)
      (fun p hp => absurd hp (by simp [initState]))

/-- C2 (counterexample): rebuilding the pivot history over the window
`dfGap4` with only the PH1 variant allowed stores exactly the two pivot
highs at bars 1 and 6 and nothing between them — two consecutive stored
pivots with the same `is_high`, because the synthetic-pivot insertion is
skipped for their four-bar gap; the stored sequence does not strictly
alternate. -/
theorem rebuild_alternation_counterexample :
    (rebuildPivots cfgPH1Only dfGap4).pivots =
      [⟨1, 20, true⟩, ⟨6, 19, true⟩] ∧
    ¬ List.Chain' (fun a b : PivotEntry => a.isHigh ≠ b.isHigh)
      (rebuildPivots cfgPH1Only dfGap4).pivots := by
  have h : (rebuildPivots cfgPH1Only dfGap4).pivots =
      [⟨1, 20, true⟩, ⟨6, 19, true⟩] := by decide
  refine ⟨h, ?_⟩
  rw [h]
  simp [List.chain'_cons]

/-- C2 (amended): after any rebuild of the pivot history, two consecutive
stored pivots can share `is_high` only when more than three bars lie
strictly between them — the gap cap of the synthetic-pivot insertion;
equivalently, every pair of consecutive same-type stored pivots is more
than four bar positions apart, and on windows whose same-type pivot pairs
are at most three bars apart the stored sequence strictly alternates. -/
theorem rebuild_pivot_alternation_gap_cap (cfg : DetectorConfig) (df : List Candle) :
    List.Chain' (fun a b : PivotEntry => a.isHigh = b.isHigh → a.bar + 4 < b.bar)
      (rebuildPivots cfg df).pivots :=
  rebuild_chain cfg df

/-- Witness instantiating `rebuild_pivot_alternation_gap_cap` on the
counterexample window itself: the two same-type pivots it keeps are five
bars apart. -/
theorem rebuild_pivot_alternation_gap_cap_witness :
    List.Chain' (fun a b : PivotEntry => a.isHigh = b.isHigh → a.bar + 4 < b.bar)
      (rebuildPivots cfgPH1Only dfGap4).pivots :=
  rebuild_pivot_alternation_gap_cap cfgPH1Only dfGap4

/-- The state produced by rebuilding over the G2 downtrend window. -/
def stG2 : TimeframeState := rebuildPivots cfgAll dfG2Down

/-- The state after the CHoCH up signal fired on `dfG2Down` at bar 18. -/
def stG2Fired : TimeframeState :=
  ((checkChoch dfG2Down stG2 18).getD (false, false, initState cfgAll)).2.2

/-- The state produced by rebuilding over the G1 downtrend window. -/
def stG1 : TimeframeState := rebuildPivots cfgAll dfG1Down

/-- The state after the CHoCH up signal fired on `dfG1Down` at bar 18. -/
def stG1Fired : TimeframeState :=
  ((checkChoch dfG1Down stG1 18).getD (false, false, initState cfgAll)).2.2

/-- C4 (amended): the CHoCH bar tests of the confirmer are exactly the
four price conditions of the source — low above the pre-CHoCH low, close
beyond the pre-CHoCH range, close beyond `pivot6`, close short of `p2` —
with no `pivot4` condition; and every fired up-signal satisfies the
four-condition up test on the CHoCH bar. -/
theorem choch_bar_tests_four_conditions :
    (∀ prev prePrev pv6 p2, chochUpBarTest prev prePrev pv6 p2 = true ↔
      (prePrev.low < prev.low ∧ prePrev.high < prev.close ∧
        pv6 < prev.close ∧ prev.close < p2)) ∧
    (∀ prev prePrev pv6 p2, chochDownBarTest prev prePrev pv6 p2 = true ↔
      (prev.high < prePrev.high ∧ prev.close < prePrev.low ∧
        prev.close < pv6 ∧ p2 < prev.close)) ∧
    (∀ df s i d s2, checkChoch df s i = some (true, d, s2) →
      ∃ pv6, s.pivot6 = some pv6 ∧
        chochUpBarTest (df.getD (i - 1) junkCandle) (df.getD (i - 2) junkCandle) pv6
          (pivotFromEnd s 6).price = true) := by
  refine ⟨?_, ?_, ?_⟩
  · intro prev prePrev pv6 p2
    simp [chochUpBarTest, Bool.and_eq_true, decide_eq_true_eq, and_assoc, gt_iff_lt]
  · intro prev prePrev pv6 p2
    simp [chochDownBarTest, Bool.and_eq_true, decide_eq_true_eq, and_assoc, gt_iff_lt]
  · intro df s i d s2 h
    exact (checkChoch_fire_up_anatomy df s i d s2 h).2.2.1

/-- Witness for `choch_bar_tests_four_conditions`: the iff at concrete
prices and the firing implication on the G1 scenario. -/
theorem choch_bar_tests_four_conditions_witness :
    (chochUpBarTest ⟨6, 8, 5, 7, 1⟩ ⟨3, 6, 4, 5, 1⟩ 6 9 = true ↔
      ((4 : ℚ) < 5 ∧ (6 : ℚ) < 7 ∧ (6 : ℚ) < 7 ∧ (7 : ℚ) < 9)) ∧
    ∃ pv6, stG1.pivot6 = some pv6 ∧
      chochUpBarTest (dfG1Down.getD 17 junkCandle) (dfG1Down.getD 16 junkCandle) pv6
        (pivotFromEnd stG1 6).price = true :=
  ⟨choch_bar_tests_four_conditions.1 ⟨6, 8, 5, 7, 1⟩ ⟨3, 6, 4, 5, 1⟩ 6 9,
   choch_bar_tests_four_conditions.2.2 dfG1Down stG1 18 false stG1Fired (by decide)⟩

/-- C4 (counterexample): on the G1 downtrend window the confirmer fires a
CHoCH up although the CHoCH bar close 170 does not exceed the pivot-4
price 180 — the claimed fifth condition `c_prev1.close > pivot4` is not
part of the code's test. -/
theorem choch_bar_test_no_pivot4_counterexample :
    (checkChoch dfG1Down stG1 18).map (fun r => (r.1, r.2.1)) = some (true, false) ∧
    (pivotFromEnd stG1 4).price = 180 ∧
    (dfG1Down.getD 17 junkCandle).close = 170 ∧
    ¬ ((dfG1Down.getD 17 junkCandle).close > (pivotFromEnd stG1 4).price) := by
  decide

/-- C5 (amended): a fired CHoCH signal guarantees only the basic
confirmation against the pre-CHoCH bar — confirmation close above the
pre-CHoCH high for up, below the pre-CHoCH low for down; the code applies
no pivot-8 body restriction to the confirmation candle. -/
theorem choch_fire_basic_confirmation_only (df : List Candle) (s : TimeframeState)
    (i : Nat) (u d : Bool) (s2 : TimeframeState)
    (h : checkChoch df s i = some (u, d, s2)) :
    (u = true → (df.getD (i - 2) junkCandle).high < (df.getD i junkCandle).close) ∧
    (d = true → (df.getD i junkCandle).close < (df.getD (i - 2) junkCandle).low) := by
  constructor
  · intro hu
    subst hu
    have := (checkChoch_fire_up_anatomy df s i d s2 h).2.2.2.1
    simpa [confirmUpBasicTest, gt_iff_lt] using this
  · intro hd
    subst hd
    have := (checkChoch_fire_down_anatomy df s i u s2 h).2.2.2.1
    simpa [confirmDownBasicTest] using this

/-- Witness for `choch_fire_basic_confirmation_only` on the G2 scenario. -/
theorem choch_fire_basic_confirmation_only_witness :
    (dfG2Down.getD 16 junkCandle).high < (dfG2Down.getD 18 junkCandle).close :=
  (choch_fire_basic_confirmation_only dfG2Down stG2 18 true false stG2Fired (by decide)).1 rfl

/-- C5 (counterexample): the G2 scenario fires a CHoCH up whose
confirmation candle violates the claimed pivot-8 body restriction: its
close 135 does exceed the p8-bar high 119, but its low 110 does not exceed
the p8 body high `max(open_p8, close_p8) = 118`. -/
theorem choch_fire_no_p8_body_restriction_counterexample :
    (checkChoch dfG2Down stG2 18).map (fun r => (r.1, r.2.1)) = some (true, false) ∧
    (pivotFromEnd stG2 0).bar = 15 ∧
    ¬ ((dfG2Down.getD 18 junkCandle).close > (dfG2Down.getD 15 junkCandle).high ∧
       (dfG2Down.getD 18 junkCandle).low >
         max (dfG2Down.getD 15 junkCandle).open_ (dfG2Down.getD 15 junkCandle).close) := by
  decide

/-- Stated from the claim's wording, for comparison with the code's
`volCondG23`: the volume cluster runs over v4..v8 and the disjuncts are
v4, v8 and v_choch ≥. -/
def volCondG23Claim (vol4 vol5 vol6 vol7 vol8 volChoch : ℚ) : Bool :=
  let m := max vol4 (max vol5 (max vol6 (max vol7 vol8)))
  decide (vol4 = m) || decide (vol8 = m) || decide (volChoch ≥ m)

/-- C6 (amended): the confirmer's volume condition for groups G2 and G3
uses the 4-5-6 cluster: it holds iff v4 or v5 equals `max(v4, v5, v6)` or
the CHoCH bar volume is at least that maximum; and every signal fired with
pattern group G2 or G3 satisfies it on the pivot-bar volumes. -/
theorem choch_volume_g23_cluster456 :
    (∀ vol4 vol5 vol6 volChoch : ℚ, volCondG23 vol4 vol5 vol6 volChoch = true ↔
      (vol4 = max vol4 (max vol5 vol6) ∨ vol5 = max vol4 (max vol5 vol6) ∨
        max vol4 (max vol5 vol6) ≤ volChoch)) ∧
    (∀ df s i d s2, checkChoch df s i = some (true, d, s2) →
      (s.patternGroup = some "G2" ∨ s.patternGroup = some "G3") →
      ∃ c6 c5 c4,
        df.get? (pivotFromEnd s 2).bar = some c6 ∧
        df.get? (pivotFromEnd s 3).bar = some c5 ∧
        df.get? (pivotFromEnd s 4).bar = some c4 ∧
        volCondG23 c4.volume c5.volume c6.volume
          ((df.getD (i - 1) junkCandle).volume) = true) ∧
    (∀ df s i u s2, checkChoch df s i = some (u, true, s2) →
      (s.patternGroup = some "G2" ∨ s.patternGroup = some "G3") →
      ∃ c6 c5 c4,
        df.get? (pivotFromEnd s 2).bar = some c6 ∧
        df.get? (pivotFromEnd s 3).bar = some c5 ∧
        df.get? (pivotFromEnd s 4).bar = some c4 ∧
        volCondG23 c4.volume c5.volume c6.volume
          ((df.getD (i - 1) junkCandle).volume) = true) := by
  refine ⟨?_, ?_, ?_⟩
  · intro vol4 vol5 vol6 volChoch
    simp [volCondG23, Bool.or_eq_true, decide_eq_true_eq, ge_iff_le]
    tauto
  · intro df s i d s2 h hg
    obtain ⟨-, -, -, -, c8, c7, c6, c5, c4, h8, h7, h6, h5, h4, hconf⟩ :=
      checkChoch_fire_up_anatomy df s i d s2 h
    refine ⟨c6, c5, c4, h6, h5, h4, ?_⟩
    rcases hg with hg | hg <;>
      (rw [hg] at hconf
       simp only [confirmUpOf, String.reduceEq, reduceIte, Bool.and_eq_true] at hconf
       exact hconf.2)
  · intro df s i u s2 h hg
    obtain ⟨-, -, -, -, c8, c7, c6, c5, c4, h8, h7, h6, h5, h4, hconf⟩ :=
      checkChoch_fire_down_anatomy df s i u s2 h
    refine ⟨c6, c5, c4, h6, h5, h4, ?_⟩
    rcases hg with hg | hg <;>
      (rw [hg] at hconf
       simp only [confirmDownOf, String.reduceEq, reduceIte, Bool.and_eq_true] at hconf
       exact hconf.2)

/-- Witness for `choch_volume_g23_cluster456`: the iff at concrete volumes
and the firing implication on the G2 scenario. -/
theorem choch_volume_g23_cluster456_witness :
    (volCondG23 10 5 5 0 = true ↔
      ((10 : ℚ) = max 10 (max 5 5) ∨ (5 : ℚ) = max 10 (max 5 5) ∨
        max (10 : ℚ) (max 5 5) ≤ 0)) ∧
    ∃ c6 c5 c4,
      dfG2Down.get? (pivotFromEnd stG2 2).bar = some c6 ∧
      dfG2Down.get? (pivotFromEnd stG2 3).bar = some c5 ∧
      dfG2Down.get? (pivotFromEnd stG2 4).bar = some c4 ∧
      volCondG23 c4.volume c5.volume c6.volume
        ((dfG2Down.getD 17 junkCandle).volume) = true :=
  ⟨choch_volume_g23_cluster456.1 10 5 5 0,
   choch_volume_g23_cluster456.2.1 dfG2Down stG2 18 false stG2Fired (by decide)
     (Or.inl (by decide))⟩

/-- C6 (counterexample): on the G2 scenario the signal fires — the code's
4-5-6 cluster condition holds (v4 = 10 is the cluster maximum) — although
the claimed v4..v8 cluster condition is false: `max(v4..v8) = v7 = 30` and
neither v4 = 10 nor v8 = 5 equals it, nor is `v_choch = 0` at least it. -/
theorem choch_volume_g23_claim_cluster_counterexample :
    (checkChoch dfG2Down stG2 18).map (fun r => (r.1, r.2.1)) = some (true, false) ∧
    stG2.patternGroup = some "G2" ∧
    (pivotFromEnd stG2 4).bar = 7 ∧ (pivotFromEnd stG2 3).bar = 9 ∧
    (pivotFromEnd stG2 2).bar = 11 ∧ (pivotFromEnd stG2 1).bar = 13 ∧
    (pivotFromEnd stG2 0).bar = 15 ∧
    volCondG23 (dfG2Down.getD 7 junkCandle).volume (dfG2Down.getD 9 junkCandle).volume
      (dfG2Down.getD 11 junkCandle).volume (dfG2Down.getD 17 junkCandle).volume = true ∧
    volCondG23Claim (dfG2Down.getD 7 junkCandle).volume (dfG2Down.getD 9 junkCandle).volume
      (dfG2Down.getD 11 junkCandle).volume (dfG2Down.getD 13 junkCandle).volume
      (dfG2Down.getD 15 junkCandle).volume (dfG2Down.getD 17 junkCandle).volume = false := by
  decide

/-- C9: once a signal fires for a pattern state the lock is set together
with the CHoCH bar index and the CHoCH bar close, and any call of the
confirmer on a locked state yields no signal (or raises) with the state
unchanged — at most one signal per pattern state until a rebuild resets
it. -/
theorem choch_lock_fires_at_most_once :
    (∀ df s i, s.chochLocked = true →
      checkChoch df s i = none ∨ checkChoch df s i = some (false, false, s)) ∧
    (∀ df s i u d s2, checkChoch df s i = some (u, d, s2) → u = true ∨ d = true →
      s2.chochLocked = true ∧ s2.chochBarIdx = some (i - 1) ∧
      s2.chochPrice = some ((df.getD (i - 1) junkCandle).close)) := by
  refine ⟨checkChoch_locked_no_fire, ?_⟩
  intro df s i u d s2 h hud
  obtain ⟨h1, h2, h3, -⟩ := checkChoch_fire_sets_lock df s i u d s2 h hud
  exact ⟨h1, h2, h3⟩

/-- Witness for `choch_lock_fires_at_most_once`: after the G2 scenario
fires, the resulting state is locked and a second identical call returns
no signal with the state unchanged. -/
theorem choch_lock_fires_at_most_once_witness :
    stG2Fired.chochLocked = true ∧
    (checkChoch dfG2Down stG2Fired 18 = none ∨
      checkChoch dfG2Down stG2Fired 18 = some (false, false, stG2Fired)) :=
  ⟨by decide, choch_lock_fires_at_most_once.1 dfG2Down stG2Fired 18 (by decide)⟩

/-- A base or aggregated candle of the aggregator, carrying its index
timestamp in whole minutes since 2025-10-20T00:00 UTC. -/
structure TimedCandle where
  time : Int
  open_ : ℚ
  high : ℚ
  low : ℚ
  close : ℚ
  volume : ℚ
deriving DecidableEq, Repr

/-- Placeholder timed candle for total reads. -/
def junkTimed : TimedCandle := ⟨0, 0, 0, 0, 0, 0⟩

/-- `AlignedCandleAggregator.TIMEFRAME_REFERENCES`
(`src/data/aligned_candle_aggregator.py:46`), each reference encoded in
minutes since 2025-10-20T00:00 UTC: 10m = Oct 24 17:10 = 4·1440 + 1030,
20m = 17:20, 25m = 17:05, 40m = 16:40, 50m = Oct 20 00:00. -/
def TIMEFRAME_REFERENCES : List (String × Int) :=
  [("10m", 6790), ("20m", 6800), ("25m", 6785), ("40m", 6760), ("50m", 0)]

/-- `AlignedCandleAggregator.get_candle_period_start`
(`src/data/aligned_candle_aggregator.py:54`): floor the offset from the
reference by the interval; Python's float `//` on whole-minute data is
exact, hence `Int.fdiv`. -/
def getCandlePeriodStart (ts intervalMinutes ref : Int) : Int :=
  ref + ((ts - ref).fdiv intervalMinutes) * intervalMinutes

/-- Insertion into a sorted list of keys, for the sorted grouping keys of
`pandas.groupby`. -/
def insertSorted (x : Int) : List Int → List Int
  | [] => [x]
  | y :: ys => if x ≤ y then x :: y :: ys else y :: insertSorted x ys

/-- First-occurrence deduplication of grouping keys. -/
def dedupKeys (l : List Int) : List Int :=
  l.foldl (fun acc k => if k ∈ acc then acc else acc ++ [k]) []

/-- The distinct period starts in ascending order, as `groupby` orders its
groups. -/
def sortedKeys (l : List Int) : List Int := (dedupKeys l).foldr insertSorted []

/-- One aggregated candle of a period
(`src/data/aligned_candle_aggregator.py:151`): first open, max high, min
low, last close, summed volume, indexed by the period start. -/
def aggGroup (key : Int) (grp : List TimedCandle) : TimedCandle where
  time := key
  open_ := (grp.headD junkTimed).open_
  high := (grp.map (·.high)).foldr max (grp.headD junkTimed).high
  low := (grp.map (·.low)).foldr min (grp.headD junkTimed).low
  close := (grp.getLastD junkTimed).close
  volume := (grp.map (·.volume)).foldr (· + ·) 0

/-- Character-level model of Python's `str.endswith('m')` on a timeframe
string (Lean's `String.endsWith` does not reduce in the kernel). -/
def endsWithM (tf : String) : Bool := tf.data.getLast? = some 'm'

/-- Character-level model of Python's `int(...)` on the digit prefix of a
timeframe string: all characters must be decimal digits and there must be
at least one. -/
def parseNatDigits (cs : List Char) : Option Nat :=
  if cs = [] then none else
  cs.foldl (fun acc c =>
    match acc with
    | none => none
    | some n => if 48 ≤ c.toNat ∧ c.toNat ≤ 57 then some (n * 10 + (c.toNat - 48)) else none)
    (some 0)

/-- `int(target_timeframe[:-1])` of the aggregator. -/
def parseTfMinutes (tf : String) : Option Int :=
  (parseNatDigits tf.data.dropLast).map Int.ofNat

/-- `AlignedCandleAggregator.aggregate`
(`src/data/aligned_candle_aggregator.py:91`): empty input short-circuits,
then the timeframe format, divisibility and reference checks may raise
(`Except.error`), then base candles are grouped by period start and only
groups with exactly `target/base` members are emitted, keyed by period
start. -/
def aggregate (df : List TimedCandle) (targetTf : String) (baseMinutes : Int) :
    Except String (List TimedCandle) :=
  if df.length = 0 then .ok [] else
  if ¬ endsWithM targetTf then .error ("Invalid timeframe format: " ++ targetTf) else
  match parseTfMinutes targetTf with
  | none => .error ("Invalid timeframe format: " ++ targetTf)
  | some targetMinutes =>
    if targetMinutes % baseMinutes ≠ 0 then
      .error "target_minutes must be divisible by base_minutes"
    else
      match TIMEFRAME_REFERENCES.lookup targetTf with
      | none => .error ("No reference time configured for " ++ targetTf)
      | some ref =>
        let keys := sortedKeys (df.map fun c => getCandlePeriodStart c.time targetMinutes ref)
        let expected := targetMinutes / baseMinutes
        .ok (keys.filterMap fun k =>
          let grp := df.filter fun c =>
            decide (getCandlePeriodStart c.time targetMinutes ref = k)
          if (grp.length : Int) = expected then some (aggGroup k grp) else none)

/-- `TimeframeAdapter.AGGREGATION_MAP` (`src/data/timeframe_adapter.py:30`). -/
def AGGREGATION_MAP : List (String × String × Nat) :=
  [("10m", "5m", 2), ("20m", "5m", 4), ("25m", "5m", 5),
   ("40m", "5m", 8), ("45m", "5m", 9), ("50m", "5m", 10)]

/-- `TimeframeAdapter._timeframe_to_minutes` (`src/data/timeframe_adapter.py:143`). -/
def timeframeToMinutes (tf : String) : Int :=
  (([("1m", 1), ("3m", 3), ("5m", 5), ("10m", 10), ("15m", 15), ("20m", 20),
     ("25m", 25), ("30m", 30), ("40m", 40), ("45m", 45), ("50m", 50),
     ("1h", 60), ("2h", 120), ("4h", 240), ("6h", 360), ("12h", 720),
     ("1d", 1440), ("1w", 10080), ("1M", 43200)] : List (String × Int)).lookup tf).getD 60

/-- `TimeframeAdapter.fetch_historical` (`src/data/timeframe_adapter.py:65`):
`baseData` stands for whatever the wrapped fetcher returns; timeframes in
the aggregation map go through the aligned aggregator and are trimmed to
`limit` from the tail, others pass through. -/
def fetchHistorical (baseData : List TimedCandle) (tf : String) (limit : Nat) :
    Except String (List TimedCandle) :=
  match AGGREGATION_MAP.lookup tf with
  | some (baseTf, _mult) =>
    if baseData.length = 0 then .ok [] else
    match aggregate baseData tf (timeframeToMinutes baseTf) with
    | .error e => .error e
    | .ok agg => .ok (if limit < agg.length then agg.drop (agg.length - limit) else agg)
  | none => .ok baseData

/-- Helper: sorted insertion introduces no new elements. -/
theorem mem_insertSorted (x y : Int) (l : List Int) (h : y ∈ insertSorted x l) :
    y = x ∨ y ∈ l := by
  induction l with
  | nil => simpa [insertSorted] using h
  | cons z zs ih =>
    unfold insertSorted at h
    split_ifs at h
    · rcases List.mem_cons.mp h with h1 | h1
      · exact Or.inl h1
      · exact Or.inr h1
    · rcases List.mem_cons.mp h with h1 | h1
      · exact Or.inr (List.mem_cons.mpr (Or.inl h1))
      · rcases ih h1 with h2 | h2
        · exact Or.inl h2
        · exact Or.inr (List.mem_cons.mpr (Or.inr h2))

/-- Helper: every sorted-deduplicated grouping key comes from the input list. -/
theorem mem_sortedKeys (y : Int) (l : List Int) (h : y ∈ sortedKeys l) : y ∈ l := by
  have haux : ∀ (m : List Int), y ∈ m.foldr insertSorted [] → y ∈ m := by
    intro m
    induction m with
    | nil => simp
    | cons z zs ih =>
      intro hm
      rcases mem_insertSorted z y _ hm with h1 | h1
      · simp [h1]
      · exact List.mem_cons.mpr (Or.inr (ih h1))
  have hfold : ∀ (src : List Int) (acc : List Int),
      y ∈ src.foldl (fun acc k => if k ∈ acc then acc else acc ++ [k]) acc →
      y ∈ src ∨ y ∈ acc := by
    intro src
    induction src with
    | nil => intro acc ha; exact Or.inr ha
    | cons z zs ih =>
      intro acc ha
      rcases ih _ ha with h1 | h1
      · exact Or.inl (List.mem_cons.mpr (Or.inr h1))
      · by_cases hz : z ∈ acc
        · simp only [hz, if_true] at h1
          exact Or.inr h1
        · simp only [hz, if_false] at h1
          rcases List.mem_append.mp h1 with h2 | h2
          · exact Or.inr h2
          · simp at h2
            exact Or.inl (List.mem_cons.mpr (Or.inl h2))
  rcases hfold l [] (haux _ h) with h1 | h1
  · exact h1
  · simp at h1

/-- C7: every candle emitted by the aligned 25m aggregation sits on the
grid anchored at the fixed reference 2025-10-24T17:05 UTC: its period
start (the emitted index; the close time is that plus 25) differs from the
reference by an integer multiple of 25 minutes, across day boundaries. -/
theorem aggregate_25m_aligned (df : List TimedCandle) (out : List TimedCandle)
    (h : aggregate df "25m" 5 = .ok out) :
    ∀ c ∈ out, (25 : Int) ∣ (c.time - 6785) := by
  intro c hc
  unfold aggregate at h
  by_cases hdf : df.length = 0
  · rw [if_pos hdf] at h
    simp only [Except.ok.injEq] at h
    subst h
    simp at hc
  rw [if_neg hdf] at h
  rw [if_neg (show ¬ ¬ (endsWithM "25m" = true) by decide)] at h
  rw [show parseTfMinutes "25m" = some 25 from by decide] at h
  simp only [] at h
  rw [if_neg (show ¬ ((25 : Int) % 5 ≠ 0) by decide)] at h
  rw [show TIMEFRAME_REFERENCES.lookup "25m" = some 6785 from by decide] at h
  simp only [Except.ok.injEq] at h
  subst h
  obtain ⟨k, hk, hfk⟩ := List.mem_filterMap.mp hc
  have hkmem := mem_sortedKeys k _ hk
  obtain ⟨c0, hc0, hkey⟩ := List.mem_map.mp hkmem
  have hct : c.time = k := by
    by_cases hlen : ((df.filter fun c2 =>
        decide (getCandlePeriodStart c2.time 25 6785 = k)).length : Int) = 25 / 5
    · rw [if_pos hlen] at hfk
      simp only [Option.some.injEq] at hfk
      subst hfk
      rfl
    · rw [if_neg hlen] at hfk
      simp at hfk
  rw [hct, ← hkey]
  unfold getCandlePeriodStart
  exact ⟨(c0.time - 6785).fdiv 25, by ring⟩

/-- Five consecutive 5m candles filling the 25m period opening at the 25m
reference instant itself. -/
def dfBase25 : List TimedCandle :=
  [⟨6785, 1, 2, 0, 1, 10⟩, ⟨6790, 1, 2, 0, 1, 10⟩, ⟨6795, 1, 2, 0, 1, 10⟩,
   ⟨6800, 1, 2, 0, 1, 10⟩, ⟨6805, 1, 2, 0, 1, 10⟩]


/-- C10: `'45m'` sits in the adapter's aggregation map but has no entry in
the aligned aggregator's reference table, so a fetch of timeframe `'45m'`
over any non-empty base window always raises the no-reference error and
never returns an aggregated window. -/
theorem fetch_45m_always_raises :
    AGGREGATION_MAP.lookup "45m" = some ("5m", 9) ∧
    TIMEFRAME_REFERENCES.lookup "45m" = none ∧
    ∀ (baseData : List TimedCandle) (limit : Nat), baseData ≠ [] →
      fetchHistorical baseData "45m" limit =
        .error ("No reference time configured for " ++ "45m") := by
  refine ⟨by decide, by decide, ?_⟩
  intro baseData limit hne
  have hlen : ¬ baseData.length = 0 := by simpa using hne
  unfold fetchHistorical
  rw [show AGGREGATION_MAP.lookup "45m" = some ("5m", 9) from by decide]
  simp only []
  rw [if_neg hlen]
  rw [show timeframeToMinutes "5m" = 5 from by decide]
  unfold aggregate
  rw [if_neg hlen]
  rw [if_neg (show ¬ ¬ (endsWithM "45m" = true) by decide)]
  rw [show parseTfMinutes "45m" = some 45 from by decide]
  simp only []
  rw [if_neg (show ¬ ((45 : Int) % 5 ≠ 0) by decide)]
  rw [show TIMEFRAME_REFERENCES.lookup "45m" = none from by decide]

/-- `TimeframeScheduler.TF_TO_MINUTES` (`src/utils/timeframe_scheduler.py:24`);
note the absence of a `'25m'` row. -/
def TF_TO_MINUTES : List (String × Nat) :=
  [("1m", 1), ("3m", 3), ("5m", 5), ("10m", 10), ("15m", 15), ("20m", 20),
   ("30m", 30), ("40m", 40), ("50m", 50), ("1h", 60), ("2h", 120), ("4h", 240),
   ("6h", 360), ("8h", 480), ("12h", 720), ("1d", 1440)]

/-- `self.TF_TO_MINUTES.get(tf, 60)` (`src/utils/timeframe_scheduler.py:57`). -/
def tfToMinutes (tf : String) : Nat := (TF_TO_MINUTES.lookup tf).getD 60

/-- `TimeframeScheduler.get_next_candle_close_time`
(`src/utils/timeframe_scheduler.py:62`), on wall-clock seconds since an
arbitrary midnight (`datetime.now().replace(microsecond=0)` keeps whole
seconds; `replace`/`timedelta` arithmetic becomes integer arithmetic on
seconds-of-epoch). -/
def getNextCandleCloseTime (tf : String) (now : Nat) : Nat :=
  let m := tfToMinutes tf
  if m < 60 then
    let currentMinute := now / 60 % 60
    let nextMinute := (currentMinute / m + 1) * m
    let nextDt :=
      if 60 ≤ nextMinute then
        let nextHour := now / 3600 % 24 + 1
        if 24 ≤ nextHour then (now / 86400 + 1) * 86400
        else now / 86400 * 86400 + nextHour * 3600
      else now / 3600 * 3600 + nextMinute * 60
    if nextDt ≤ now then nextDt + m * 60 else nextDt
  else if m = 60 then
    let nextHour := (now / 3600 % 24 + 1) % 24
    let nextDt := now / 86400 * 86400 + nextHour * 3600
    if nextDt ≤ now then nextDt + 3600 else nextDt
  else if m = 1440 then
    now / 86400 * 86400 + 86400
  else
    let hours := m / 60
    let currentBlock := now / 3600 % 24 / hours * hours
    let nextBlock := currentBlock + hours
    let nextDt :=
      if 24 ≤ nextBlock then now / 86400 * 86400 + 86400 + (nextBlock - 24) * 3600
      else now / 86400 * 86400 + nextBlock * 3600
    if nextDt ≤ now then nextDt + hours * 3600 else nextDt

/-- Helper: concrete interval lookups of the scheduler map. -/
theorem tfToMinutes_vals :
    tfToMinutes "1m" = 1 ∧ tfToMinutes "3m" = 3 ∧ tfToMinutes "5m" = 5 ∧
    tfToMinutes "10m" = 10 ∧ tfToMinutes "15m" = 15 ∧ tfToMinutes "20m" = 20 ∧
    tfToMinutes "30m" = 30 ∧ tfToMinutes "40m" = 40 := by decide

set_option maxHeartbeats 2000000 in
/-- C8 (amended): for every minute-based timeframe whose interval divides
the hour evenly (1m, 3m, 5m, 10m, 15m, 20m, 30m), `next_close(now)` is the
smallest interval-aligned instant strictly greater than `now`; the 25m
timeframe is absent from the scheduler's map and falls back to the default
60-minute (hour-boundary) schedule, with no reference-anchored
arithmetic. -/
theorem scheduler_minute_next_close_aligned :
    (∀ tf m, (tf, m) ∈ ([("1m", 1), ("3m", 3), ("5m", 5), ("10m", 10),
        ("15m", 15), ("20m", 20), ("30m", 30)] : List (String × Nat)) →
      ∀ now : Nat,
        tfToMinutes tf = m ∧
        getNextCandleCloseTime tf now % (60 * m) = 0 ∧
        now < getNextCandleCloseTime tf now ∧
        (∀ t, t % (60 * m) = 0 → now < t → getNextCandleCloseTime tf now ≤ t)) ∧
    TF_TO_MINUTES.lookup "25m" = none ∧ tfToMinutes "25m" = 60 := by
  refine ⟨?_, by decide, by decide⟩
  intro tf m hmem now
  fin_cases hmem
  all_goals
    refine ⟨by decide, ?_, ?_, ?_⟩
  all_goals
    unfold getNextCandleCloseTime
  all_goals
    try intro t ht1 ht2
  all_goals
    first
    | rw [tfToMinutes_vals.1]
    | rw [tfToMinutes_vals.2.1]
    | rw [tfToMinutes_vals.2.2.1]
    | rw [tfToMinutes_vals.2.2.2.1]
    | rw [tfToMinutes_vals.2.2.2.2.1]
    | rw [tfToMinutes_vals.2.2.2.2.2.1]
    | rw [tfToMinutes_vals.2.2.2.2.2.2.1]
  all_goals
    simp only []
  all_goals
    split_ifs <;> omega

/-- Witness for `aggregate_25m_aligned` on the concrete five-candle
window. -/
theorem aggregate_25m_aligned_witness :
    aggregate dfBase25 "25m" 5 = .ok [⟨6785, 1, 2, 0, 1, 50⟩] ∧
    (25 : Int) ∣ ((⟨6785, 1, 2, 0, 1, 50⟩ : TimedCandle).time - 6785) := by
  have h : aggregate dfBase25 "25m" 5 = .ok [⟨6785, 1, 2, 0, 1, 50⟩] := by
    simp only [aggregate, dfBase25]
    norm_num [sortedKeys, dedupKeys, insertSorted, aggGroup,
      show getCandlePeriodStart 6785 25 6785 = 6785 from by decide,
      show getCandlePeriodStart 6790 25 6785 = 6785 from by decide,
      show getCandlePeriodStart 6795 25 6785 = 6785 from by decide,
      show getCandlePeriodStart 6800 25 6785 = 6785 from by decide,
      show getCandlePeriodStart 6805 25 6785 = 6785 from by decide,
      show endsWithM "25m" = true from by decide,
      show parseTfMinutes "25m" = some 25 from by decide,
      show TIMEFRAME_REFERENCES.lookup "25m" = some 6785 from by decide]
    norm_num [List.filterMap_cons, List.filter, aggGroup, junkTimed,
      show getCandlePeriodStart 6785 25 6785 = 6785 from by decide,
      show getCandlePeriodStart 6790 25 6785 = 6785 from by decide,
      show getCandlePeriodStart 6795 25 6785 = 6785 from by decide,
      show getCandlePeriodStart 6800 25 6785 = 6785 from by decide,
      show getCandlePeriodStart 6805 25 6785 = 6785 from by decide]
  exact ⟨h, aggregate_25m_aligned dfBase25 [⟨6785, 1, 2, 0, 1, 50⟩] h
    ⟨6785, 1, 2, 0, 1, 50⟩ (List.mem_singleton.mpr rfl)⟩

/-- Witness for `fetch_45m_always_raises` on a one-candle base window. -/
theorem fetch_45m_always_raises_witness :
    fetchHistorical [⟨0, 1, 1, 1, 1, 1⟩] "45m" 50 =
      .error ("No reference time configured for " ++ "45m") :=
  fetch_45m_always_raises.2.2 [⟨0, 1, 1, 1, 1, 1⟩] 50 (by decide)

/-- C8 (counterexample): 40 minutes divides the 1440-minute day evenly,
yet at 00:50:00 the scheduler returns 01:00:00 (3600 s), which is not
40m-aligned — the smallest 40m-aligned instant after 00:50:00 is 01:20:00
(4800 s); and the 25m timeframe is missing from the scheduler map, so it
is scheduled with the 60-minute default instead of `R_25m`-anchored
arithmetic. -/
theorem scheduler_40m_25m_misaligned_counterexample :
    tfToMinutes "40m" = 40 ∧ 1440 % 40 = 0 ∧
    getNextCandleCloseTime "40m" 3000 = 3600 ∧
    ¬ ((2400 : Nat) ∣ 3600) ∧ (2400 : Nat) ∣ 4800 ∧ (3000 : Nat) < 4800 ∧
    TF_TO_MINUTES.lookup "25m" = none ∧ tfToMinutes "25m" = 60 := by
  decide

/-- Witness for `scheduler_minute_next_close_aligned` at the 5m timeframe
and 00:50:00. -/
theorem scheduler_minute_next_close_aligned_witness :
    tfToMinutes "5m" = 5 ∧
    getNextCandleCloseTime "5m" 3000 % (60 * 5) = 0 ∧
    3000 < getNextCandleCloseTime "5m" 3000 ∧
    (∀ t, t % (60 * 5) = 0 → 3000 < t → getNextCandleCloseTime "5m" 3000 ≤ t) :=
  scheduler_minute_next_close_aligned.1 "5m" 5 (by decide) 3000
